import Mathlib

/-!
Kernel launch validation and multi-device cooperative dispatch (hip_module.cpp)

A shallow embedding of the launch path of `hipamd/src/hip_module.cpp`:
`ihipLaunchKernel_validate`, `ihipLaunchKernelCommand`, `ihipModuleLaunchKernel` and
`ihipModuleLaunchCooperativeKernelMultiDevice`.

Conventions of the embedding.
* `uint32_t` / `unsigned int` values are natural numbers, every 32-bit product is reduced
  modulo `2 ^ 32` where the source computes it in 32 bits; `size_t` / `uint64_t` arithmetic is
  reduced modulo `2 ^ 64`.
* A pointer is an address (`0` is `nullptr`); a handle that the source tests against
  `nullptr` is an `Option`; an array reached through a pointer is a function from its index.
* Side effects (parameter writes, queue drains, command construction, enqueue, release) are
  recorded, in program order, in a trace of `Event`s returned next to the result code.
* A call ends with an `Outcome`: it returns a result code, or it does not return because it
  divides an integer by zero (the occupancy comparison of `ihipLaunchKernel_validate` with a
  block size of 0). A result code written where an `Outcome` is expected means "returns it";
  a caller whose callee does not return does not return either.
* Results of collaborators whose code is outside this file (platform state, occupancy
  calculator, command allocation, queue status) are inputs, collected in `LaunchExt`.
* Values of header constants that the file uses but does not define are the fields of `Consts`.
-/

namespace HipModule

/-- Result codes returned on the launch path. -/
inductive hipError_t where
  | hipSuccess
  | hipErrorInvalidValue
  | hipErrorOutOfMemory
  | hipErrorInvalidConfiguration
  | hipErrorInvalidDevice
  | hipErrorInvalidImage
  | hipErrorInvalidResourceHandle
  | hipErrorInvalidDeviceFunction
  | hipErrorIllegalState
  | hipErrorLaunchFailure
  | hipErrorCooperativeLaunchTooLarge
  | hipErrorNotFound
  | hipErrorUnknown
  deriving DecidableEq, Repr

open hipError_t

/-- Largest value of `uint32_t`, `std::numeric_limits<uint32_t>::max()`. -/
def UINT32_MAX : Nat := 2 ^ 32 - 1

/-- Product of two `uint32_t` values as the machine computes it (modulo `2 ^ 32`). -/
def mul32 (a b : Nat) : Nat := (a * b) % 2 ^ 32

/-- Product of two `size_t` values as the machine computes it (modulo `2 ^ 64`). -/
def mul64 (a b : Nat) : Nat := (a * b) % 2 ^ 64

/-- Sum of two `uint64_t` values as the machine computes it (modulo `2 ^ 64`). -/
def add64 (a b : Nat) : Nat := (a + b) % 2 ^ 64

/-- Conversion `unsigned(x)` of an `int` to a 32-bit unsigned value. -/
def toUnsigned (x : Int) : Nat := (x % 2 ^ 32).toNat

/-- Header constants used by the launch path; their values are not defined in this file. -/
structure Consts where
  /-- Bit `amd::NDRangeKernelCommand::CooperativeGroups`. -/
  CooperativeGroups : Nat
  /-- Bit `amd::NDRangeKernelCommand::CooperativeMultiDeviceGroups`. -/
  CooperativeMultiDeviceGroups : Nat
  /-- Bit `amd::NDRangeKernelCommand::AnyOrderLaunch`. -/
  AnyOrderLaunch : Nat
  /-- Flag `hipExtAnyOrderLaunch`. -/
  hipExtAnyOrderLaunch : Nat
  /-- Flag `hipCooperativeLaunchMultiDeviceNoPreSync`. -/
  hipCooperativeLaunchMultiDeviceNoPreSync : Nat
  /-- Flag `hipCooperativeLaunchMultiDeviceNoPostSync`. -/
  hipCooperativeLaunchMultiDeviceNoPostSync : Nat
  /-- Flag `hipEventDisableSystemFence`. -/
  hipEventDisableSystemFence : Nat
  /-- Marker `HIP_LAUNCH_PARAM_BUFFER_POINTER`. -/
  HIP_LAUNCH_PARAM_BUFFER_POINTER : Nat
  /-- Marker `HIP_LAUNCH_PARAM_BUFFER_SIZE`. -/
  HIP_LAUNCH_PARAM_BUFFER_SIZE : Nat
  /-- Marker `HIP_LAUNCH_PARAM_END`. -/
  HIP_LAUNCH_PARAM_END : Nat
  /-- Scope `amd::Device::kCacheStateIgnore`. -/
  kCacheStateIgnore : Nat
  /-- Scope `amd::Device::kCacheStateSystem`. -/
  kCacheStateSystem : Nat

/-- Values used when the code is evaluated on concrete inputs: those of the HIP and ROCclr
headers for the flags and the markers; of the two cache scopes only their being different
matters. -/
def headerConsts : Consts where
  CooperativeGroups := 0x01
  CooperativeMultiDeviceGroups := 0x02
  AnyOrderLaunch := 0x04
  hipExtAnyOrderLaunch := 0x01
  hipCooperativeLaunchMultiDeviceNoPreSync := 0x01
  hipCooperativeLaunchMultiDeviceNoPostSync := 0x02
  hipEventDisableSystemFence := 0x20000000
  HIP_LAUNCH_PARAM_BUFFER_POINTER := 0x01
  HIP_LAUNCH_PARAM_BUFFER_SIZE := 0x02
  HIP_LAUNCH_PARAM_END := 0x03
  kCacheStateIgnore := 0
  kCacheStateSystem := 2

/-- The fields of `device->info()` read on the launch path. -/
structure DeviceInfo where
  localMemSizePerCU_ : Nat
  maxWorkGroupSize_ : Nat
  cooperativeGroups_ : Bool
  cooperativeMultiDeviceGroups_ : Bool
  deriving DecidableEq, Repr

/-- An `amd::Device`: its address (identity), its ROCclr `index()` and its `info()`. -/
structure Device where
  addr : Nat
  index : Nat
  info : DeviceInfo
  deriving DecidableEq, Repr

/-- Placeholder for an out-of-range read of the device table. -/
def Device.null : Device :=
  { addr := 0, index := 0,
    info := { localMemSizePerCU_ := 0, maxWorkGroupSize_ := 0, cooperativeGroups_ := false,
              cooperativeMultiDeviceGroups_ := false } }

/-- An `amd::KernelParameterDescriptor`: offset, size, and whether `type_ == T_POINTER`. -/
structure KernelParameterDescriptor where
  offset_ : Nat
  size_ : Nat
  isPointer : Bool
  deriving DecidableEq, Repr

/-- The per-device kernel: `workGroupInfo()->size_` and `getUniformWorkGroupSize()`. -/
structure DeviceKernel where
  workGroupInfoSize_ : Nat
  uniformWorkGroupSize : Bool
  deriving DecidableEq, Repr

/-- A `hip::DeviceFunc` with its `amd::Kernel`: an identity, the kernel signature and
`kernel->getDeviceKernel(device)` (by device address, `none` for a null result). -/
structure DeviceFunc where
  kernel : Nat
  signature : List KernelParameterDescriptor
  getDeviceKernel : Nat → Option DeviceKernel

/-- A `hip::Stream`: its queue identity, `hip::Stream::DeviceId` and `vdev()->device()`. -/
structure Stream where
  queue : Nat
  deviceId : Nat
  device : Device
  deriving DecidableEq, Repr

/-- A `hip::Event`: an identity and its `flags`. -/
structure HipEvent where
  id : Nat
  flags : Nat
  deriving DecidableEq, Repr

/-- Process state read by the launch path: the device table `g_devices` (each entry standing
for `g_devices[i]->devices()[0]`), the count written by `ihipDeviceGetCount` and its result
code, and the stream that a null `hipStream_t` resolves to. -/
structure Env where
  g_devices : List Device
  numActiveGPUs : Int
  deviceGetCountResult : hipError_t
  nullStream : Stream

/-- Resolution of a stream handle, `hip::getStream`. -/
def Env.getStream (env : Env) (hStream : Option Stream) : Stream :=
  hStream.getD env.nullStream

/-- Table read `g_devices[deviceId]->devices()[0]`. -/
def Env.device (env : Env) (deviceId : Nat) : Device :=
  env.g_devices.getD deviceId Device.null

/-- Results of the collaborators called during one launch. -/
structure LaunchExt where
  /-- Result of `PlatformState::instance().initStatManagedVarDevicePtr(deviceId)`. -/
  initStatManagedVarDevicePtr : hipError_t
  /-- Result code of `ihipOccupancyMaxActiveBlocksPerMultiprocessor`. -/
  occupancyErr : hipError_t
  /-- Value it stores in `max_blocks_per_grid`. -/
  max_blocks_per_grid : Int
  /-- Whether `new amd::NDRangeKernelCommand` gave a non-null pointer. -/
  commandAllocated : Bool
  /-- Whether `captureAndValidate()` returned `CL_SUCCESS`. -/
  captureOk : Bool
  /-- Result of `eStart->addMarker`. -/
  addMarker : hipError_t
  /-- Whether `command->status() == CL_INVALID_OPERATION` after enqueue. -/
  statusInvalidOperation : Bool
  deriving DecidableEq, Repr

/-- The constructor arguments of an `amd::NDRangeKernelCommand`. -/
structure NDRangeKernelCommand where
  queue : Nat
  kernel : Nat
  globalWorkOffset : Nat × Nat × Nat
  globalWorkSize : Nat × Nat × Nat
  localWorkSize : Nat × Nat × Nat
  sharedMemBytes : Nat
  params : Nat
  gridId : Nat
  numGrids : Nat
  prevGridSum : Nat
  allGridSum : Nat
  firstDevice : Nat
  profileNDRange : Bool
  deriving DecidableEq, Repr

/-- The scalar arguments of one call of `ihipModuleLaunchKernel`. -/
structure LaunchCall where
  globalWorkSize : Nat × Nat × Nat
  blockDim : Nat × Nat × Nat
  sharedMemBytes : Nat
  flags : Nat
  params : Nat
  gridId : Nat
  numGrids : Nat
  prevGridSum : Nat
  allGridSum : Nat
  firstDevice : Nat
  deriving DecidableEq, Repr

/-- Observable steps of the launch path, in the order the program performs them. -/
inductive Event where
  /-- Entry into `ihipModuleLaunchKernel` with the given arguments (a marker, no effect). -/
  | call (c : LaunchCall)
  /-- Write `kernel->parameters().set(index, size, value, svmBound)`. -/
  | parametersSet (kernel index size value : Nat) (svmBound : Bool)
  /-- Blocking drain `hip_stream->finish()` of a queue. -/
  | finish (queue : Nat)
  /-- Construction `new amd::NDRangeKernelCommand(...)`. -/
  | newCommand (cmd : NDRangeKernelCommand)
  /-- Call `kernelCommand->captureAndValidate()`. -/
  | captureAndValidate
  /-- Call `eStart->addMarker(hStream, nullptr, false)`. -/
  | addMarker (event queue : Nat)
  /-- Call `command->setEventScope(scope)`. -/
  | setEventScope (scope : Nat)
  /-- Call `command->enqueue()`. -/
  | enqueue (cmd : NDRangeKernelCommand)
  /-- Call `eStop->BindCommand(*command, false)`. -/
  | bindCommand (event : Nat)
  /-- Call `command->release()`. -/
  | release
  deriving DecidableEq, Repr

/-- How a call ends: it returns a result code, or it does not return because it executes an
integer division by zero (undefined in C++; the process is ended by `SIGFPE`). -/
inductive Outcome where
  | returned (e : hipError_t)
  | divideByZero
  deriving DecidableEq, Repr

/-- A result code is read as the outcome of returning it. -/
instance : Coe hipError_t Outcome := ⟨Outcome.returned⟩

/-- How a call ended, together with the steps performed. -/
structure LaunchResult where
  status : Outcome
  trace : List Event
  deriving DecidableEq, Repr

/-- The loop `for (i = 0; i < signature.numParameters(); ++i)` at the end of
`ihipLaunchKernel_validate`, from index `i` on; the assertions are no-ops. -/
def setParameters (kernel : Nat) (kernelParams : Option (Nat → Nat)) (kernargs : Nat) :
    Nat → List KernelParameterDescriptor → List Event
  | _, [] => []
  | i, desc :: rest =>
    (match kernelParams with
      | none => Event.parametersSet kernel i desc.size_ (kernargs + desc.offset_) desc.isPointer
      | some kp => Event.parametersSet kernel i desc.size_ (kp i) desc.isPointer)
      :: setParameters kernel kernelParams kernargs (i + 1) rest

/-- The block `if (params & CooperativeGroups) { ... }` of `ihipLaunchKernel_validate`:
`some o` when the function ends there with outcome `o`, `none` when control falls through.
The `int block_size` is converted back to unsigned for the division, so the quotient is that
of the two 32-bit products. When the 32-bit product of the block dimensions is 0 and the
occupancy call has succeeded, the division `(...) / block_size` is a division by zero and
the function does not return. -/
def cooperativeGroupsCheck (K : Consts) (ext : LaunchExt) (info : DeviceInfo)
    (globalWorkSizeX globalWorkSizeY globalWorkSizeZ blockDimX blockDimY blockDimZ params : Nat) :
    Option Outcome :=
  if params &&& K.CooperativeGroups ≠ 0 then
    if !info.cooperativeGroups_ then some hipErrorLaunchFailure
    else
      let block_size := mul32 (mul32 blockDimX blockDimY) blockDimZ
      if ext.occupancyErr ≠ hipSuccess then some ext.occupancyErr
      else if block_size = 0 then some Outcome.divideByZero
      else if mul32 (mul32 globalWorkSizeX globalWorkSizeY) globalWorkSizeZ / block_size >
          toUnsigned ext.max_blocks_per_grid then
        some hipErrorCooperativeLaunchTooLarge
      else none
  else none

/-- The block `if (params & CooperativeMultiDeviceGroups) { ... }`. -/
def cooperativeMultiDeviceCheck (K : Consts) (info : DeviceInfo) (params : Nat) :
    Option Outcome :=
  if params &&& K.CooperativeMultiDeviceGroups ≠ 0 then
    if !info.cooperativeMultiDeviceGroups_ then some hipErrorLaunchFailure else none
  else none

/-- The tail of `ihipLaunchKernel_validate` from `address kernargs = nullptr;` on: the marker
check of `extra` and the parameter loop. -/
def bindArguments (K : Consts) (function : DeviceFunc) (kernelParams extra : Option (Nat → Nat)) :
    LaunchResult :=
  match extra with
  | some ex =>
    if ex 0 ≠ K.HIP_LAUNCH_PARAM_BUFFER_POINTER ∨ ex 2 ≠ K.HIP_LAUNCH_PARAM_BUFFER_SIZE ∨
        ex 4 ≠ K.HIP_LAUNCH_PARAM_END then
      ⟨hipErrorInvalidValue, []⟩
    else
      ⟨hipSuccess, setParameters function.kernel kernelParams (ex 1) 0 function.signature⟩
  | none => ⟨hipSuccess, setParameters function.kernel kernelParams 0 0 function.signature⟩

/-- The function `ihipLaunchKernel_validate`. -/
def ihipLaunchKernel_validate (env : Env) (K : Consts) (ext : LaunchExt) (f : Option DeviceFunc)
    (globalWorkSizeX globalWorkSizeY globalWorkSizeZ blockDimX blockDimY blockDimZ
      sharedMemBytes : Nat)
    (kernelParams extra : Option (Nat → Nat)) (deviceId : Nat) (params : Nat) : LaunchResult :=
  match f with
  | none => ⟨hipErrorInvalidImage, []⟩
  | some function =>
    if kernelParams.isSome ∧ extra.isSome then ⟨hipErrorInvalidValue, []⟩
    else if globalWorkSizeX = 0 ∨ globalWorkSizeY = 0 ∨ globalWorkSizeZ = 0 ∨ blockDimX = 0 ∨
        blockDimY = 0 ∨ blockDimZ = 0 then ⟨hipErrorInvalidValue, []⟩
    else
      let device := env.device deviceId
      let info := device.info
      if sharedMemBytes > info.localMemSizePerCU_ then ⟨hipErrorInvalidValue, []⟩
      else if mul32 (mul32 blockDimX blockDimY) blockDimZ > info.maxWorkGroupSize_ then
        ⟨hipErrorInvalidValue, []⟩
      else
        match function.getDeviceKernel device.addr with
        | none => ⟨hipErrorInvalidDevice, []⟩
        | some deviceKernel =>
          if mul32 (mul32 blockDimX blockDimY) blockDimZ > deviceKernel.workGroupInfoSize_ then
            ⟨hipErrorLaunchFailure, []⟩
          else
            match cooperativeGroupsCheck K ext info globalWorkSizeX globalWorkSizeY
                globalWorkSizeZ blockDimX blockDimY blockDimZ params with
            | some e => ⟨e, []⟩
            | none =>
              match cooperativeMultiDeviceCheck K info params with
              | some e => ⟨e, []⟩
              | none => bindArguments K function kernelParams extra

/-- The function `ihipLaunchKernelCommand`: the result code, the command handed back through
`command` (if any) and the steps performed. -/
def ihipLaunchKernelCommand (K : Consts) (ext : LaunchExt) (function : DeviceFunc)
    (globalWorkSizeX globalWorkSizeY globalWorkSizeZ blockDimX blockDimY blockDimZ
      sharedMemBytes : Nat)
    (stream : Stream) (startEvent stopEvent : Option HipEvent)
    (flags params gridId numGrids prevGridSum allGridSum firstDevice : Nat) :
    hipError_t × Option NDRangeKernelCommand × List Event :=
  let profileNDRange := startEvent.isSome || stopEvent.isSome
  let params1 := if flags &&& K.hipExtAnyOrderLaunch ≠ 0 then params ||| K.AnyOrderLaunch else params
  let kernelCommand : NDRangeKernelCommand :=
    { queue := stream.queue, kernel := function.kernel,
      globalWorkOffset := (0, 0, 0),
      globalWorkSize := (globalWorkSizeX, globalWorkSizeY, globalWorkSizeZ),
      localWorkSize := (blockDimX, blockDimY, blockDimZ),
      sharedMemBytes := sharedMemBytes, params := params1, gridId := gridId,
      numGrids := numGrids, prevGridSum := prevGridSum, allGridSum := allGridSum,
      firstDevice := firstDevice, profileNDRange := profileNDRange }
  if !ext.commandAllocated then (hipErrorOutOfMemory, none, [])
  else if !ext.captureOk then
    (hipErrorOutOfMemory, none,
      [Event.newCommand kernelCommand, Event.captureAndValidate, Event.release])
  else
    (hipSuccess, some kernelCommand, [Event.newCommand kernelCommand, Event.captureAndValidate])

/-- The part of `ihipModuleLaunchKernel` after a successful `ihipLaunchKernelCommand`: the
start marker, the event scope, enqueue, stop-event binding, the status test and release. -/
def enqueueCommand (K : Consts) (ext : LaunchExt) (command : NDRangeKernelCommand)
    (stream : Stream) (startEvent stopEvent : Option HipEvent) : LaunchResult :=
  let startSteps : List Event :=
    match startEvent with
    | some eStart => [Event.addMarker eStart.id stream.queue]
    | none => []
  if startEvent.isSome ∧ ext.addMarker ≠ hipSuccess then ⟨ext.addMarker, startSteps⟩
  else
    let enqueueSteps : List Event :=
      match stopEvent with
      | some eStop =>
        [Event.setEventScope
            (if eStop.flags &&& K.hipEventDisableSystemFence ≠ 0 then K.kCacheStateIgnore
             else K.kCacheStateSystem),
          Event.enqueue command, Event.bindCommand eStop.id]
      | none => [Event.enqueue command]
    if ext.statusInvalidOperation then
      ⟨hipErrorIllegalState, startSteps ++ enqueueSteps ++ [Event.release]⟩
    else ⟨hipSuccess, startSteps ++ enqueueSteps ++ [Event.release]⟩

/-- The statement `if (globalWorkSize < blockDim) blockDim = globalWorkSize;` on one axis:
the new value of `blockDim`. -/
def clampBlock (globalWorkSize blockDim : Nat) : Nat :=
  if globalWorkSize < blockDim then globalWorkSize else blockDim

/-- The function `ihipModuleLaunchKernel`. The scoped lock on `function->dflock_` is held
from before the validation to the return and is not represented. The device kernel read for
`getUniformWorkGroupSize()` is non-null there, `ihipLaunchKernel_validate` having returned
`hipErrorInvalidDevice` otherwise. -/
def ihipModuleLaunchKernel (env : Env) (K : Consts) (ext : LaunchExt) (f : Option DeviceFunc)
    (globalWorkSizeX globalWorkSizeY globalWorkSizeZ blockDimX blockDimY blockDimZ
      sharedMemBytes : Nat)
    (hStream : Option Stream) (kernelParams extra : Option (Nat → Nat))
    (startEvent stopEvent : Option HipEvent)
    (flags params gridId numGrids prevGridSum allGridSum firstDevice : Nat) : LaunchResult :=
  let entry : Event := Event.call
    { globalWorkSize := (globalWorkSizeX, globalWorkSizeY, globalWorkSizeZ),
      blockDim := (blockDimX, blockDimY, blockDimZ), sharedMemBytes := sharedMemBytes,
      flags := flags, params := params, gridId := gridId, numGrids := numGrids,
      prevGridSum := prevGridSum, allGridSum := allGridSum, firstDevice := firstDevice }
  let deviceId := (env.getStream hStream).deviceId
  if ext.initStatManagedVarDevicePtr ≠ hipSuccess then ⟨ext.initStatManagedVarDevicePtr, [entry]⟩
  else
    match f with
    | none => ⟨hipErrorInvalidResourceHandle, [entry]⟩
    | some function =>
      let validated := ihipLaunchKernel_validate env K ext f globalWorkSizeX globalWorkSizeY
        globalWorkSizeZ blockDimX blockDimY blockDimZ sharedMemBytes kernelParams extra deviceId
        params
      if validated.status ≠ hipSuccess then ⟨validated.status, entry :: validated.trace⟩
      else
        let blockDimX1 := clampBlock globalWorkSizeX blockDimX
        let blockDimY1 := clampBlock globalWorkSizeY blockDimY
        let blockDimZ1 := clampBlock globalWorkSizeZ blockDimZ
        let device := env.device deviceId
        let uniform : Bool :=
          match function.getDeviceKernel device.addr with
          | some deviceKernel => deviceKernel.uniformWorkGroupSize
          | none => false
        if uniform ∧ (globalWorkSizeX % blockDimX1 ≠ 0 ∨ globalWorkSizeY % blockDimY1 ≠ 0 ∨
            globalWorkSizeZ % blockDimZ1 ≠ 0) then
          ⟨hipErrorInvalidValue, entry :: validated.trace⟩
        else
          let hip_stream := env.getStream hStream
          match ihipLaunchKernelCommand K ext function globalWorkSizeX globalWorkSizeY
              globalWorkSizeZ blockDimX1 blockDimY1 blockDimZ1 sharedMemBytes hip_stream
              startEvent stopEvent flags params gridId numGrids prevGridSum allGridSum
              firstDevice with
          | (_, some command, steps) =>
            let rest := enqueueCommand K ext command hip_stream startEvent stopEvent
            ⟨rest.status, entry :: validated.trace ++ steps ++ rest.trace⟩
          | (status, none, steps) => ⟨status, entry :: validated.trace ++ steps⟩

/-- One entry of the launch list, `hipFunctionLaunchParams`. -/
structure hipFunctionLaunchParams where
  function : Option DeviceFunc
  gridDimX : Nat
  gridDimY : Nat
  gridDimZ : Nat
  blockDimX : Nat
  blockDimY : Nat
  blockDimZ : Nat
  sharedMemBytes : Nat
  hStream : Option Stream
  kernelParams : Option (Nat → Nat)

/-- The first loop of `ihipModuleLaunchCooperativeKernelMultiDevice` from entry `i` on, with
the running `allGridSize` and the vector `mgpu_list`: the total on completion, or the error
it returns. -/
def geometryPass : List hipFunctionLaunchParams → Nat → Nat → List (Option Nat) →
    Except hipError_t Nat
  | [], _, allGridSize, _ => .ok allGridSize
  | launch :: rest, i, allGridSize, mgpu_list =>
    let blockDims := mul32 (mul32 launch.blockDimX launch.blockDimY) launch.blockDimZ
    let allGridSize1 := add64 allGridSize
      (mul32 (mul32 (mul32 launch.gridDimX launch.gridDimY) launch.gridDimZ) blockDims)
    if blockDims = 0 then .error hipErrorInvalidConfiguration
    else
      match launch.hStream with
      | some hip_stream =>
        if some hip_stream.device.addr ∈ mgpu_list then .error hipErrorInvalidDevice
        else geometryPass rest (i + 1) allGridSize1 (mgpu_list.set i (some hip_stream.device.addr))
      | none => .error hipErrorInvalidResourceHandle

/-- The search of `g_devices` done for the first entry: the ROCclr index of the stream's
device when the device is in the table, else the previous value of `firstDevice`. -/
def findFirstDevice (env : Env) (hip_stream : Stream) (firstDevice : Nat) : Nat :=
  if env.g_devices.any (fun d => d.addr == hip_stream.device.addr) then
    hip_stream.device.index % 2 ^ 32
  else firstDevice

/-- How the dispatch loop was left: by its `return` statement, by running to the end or
`break` (with the value of `result`), or not at all because a launch did not return. -/
inductive LoopExit where
  | returned (e : hipError_t)
  | finished (result : hipError_t)
  | divideByZero
  deriving DecidableEq, Repr

/-- The dispatch loop of `ihipModuleLaunchCooperativeKernelMultiDevice` from entry `i` on, with
the running `prevGridSize`, `firstDevice` and `result`; `ext i` gives the collaborators'
results during the launch of entry `i`. -/
def dispatchLoop (env : Env) (K : Consts) (ext : Nat → LaunchExt)
    (flags extFlags numDevices allGridSize : Nat) :
    List hipFunctionLaunchParams → Nat → Nat → Nat → hipError_t → LoopExit × List Event
  | [], _, _, _, result => (LoopExit.finished result, [])
  | launch :: rest, i, prevGridSize, firstDevice, _ =>
    let hip_stream := env.getStream launch.hStream
    let firstDevice1 := if i = 0 then findFirstDevice env hip_stream firstDevice else firstDevice
    let globalWorkSizeX := mul64 launch.gridDimX launch.blockDimX
    let globalWorkSizeY := mul64 launch.gridDimY launch.blockDimY
    let globalWorkSizeZ := mul64 launch.gridDimZ launch.blockDimZ
    if globalWorkSizeX > UINT32_MAX ∨ globalWorkSizeY > UINT32_MAX ∨
        globalWorkSizeZ > UINT32_MAX then
      (LoopExit.returned hipErrorInvalidConfiguration, [])
    else
      let launched := ihipModuleLaunchKernel env K (ext i) launch.function globalWorkSizeX
        globalWorkSizeY globalWorkSizeZ launch.blockDimX launch.blockDimY launch.blockDimZ
        launch.sharedMemBytes launch.hStream launch.kernelParams none none none flags extFlags
        i numDevices prevGridSize allGridSize firstDevice1
      match launched.status with
      | Outcome.divideByZero => (LoopExit.divideByZero, launched.trace)
      | Outcome.returned result =>
        if result ≠ hipSuccess then (LoopExit.finished result, launched.trace)
        else
          let next := dispatchLoop env K ext flags extFlags numDevices allGridSize rest (i + 1)
            (add64 prevGridSize (mul64 (mul64 globalWorkSizeX globalWorkSizeY) globalWorkSizeZ))
            firstDevice1 result
          (next.1, launched.trace ++ next.2)

/-- A barrier loop: `hip_stream->finish()` on the stream of every entry, in list order. The
streams are non-null here, the first loop having returned on a null one. -/
def finishAll (env : Env) (launchParamsList : List hipFunctionLaunchParams) : List Event :=
  launchParamsList.map (fun launch => Event.finish (env.getStream launch.hStream).queue)

/-- The block `if ((flags & hipCooperativeLaunchMultiDeviceNoPreSync) == 0) { ... }` before
the dispatch loop. -/
def preSync (env : Env) (K : Consts) (launchParamsList : List hipFunctionLaunchParams)
    (flags : Nat) : List Event :=
  if flags &&& K.hipCooperativeLaunchMultiDeviceNoPreSync = 0 then finishAll env launchParamsList
  else []

/-- The block `if ((flags & hipCooperativeLaunchMultiDeviceNoPostSync) == 0) { ... }` after
the dispatch loop. -/
def postSync (env : Env) (K : Consts) (launchParamsList : List hipFunctionLaunchParams)
    (flags : Nat) : List Event :=
  if flags &&& K.hipCooperativeLaunchMultiDeviceNoPostSync = 0 then
    finishAll env launchParamsList
  else []

/-- The function `ihipModuleLaunchCooperativeKernelMultiDevice`; the list holds the
`numDevices` entries of `launchParamsList`. -/
def ihipModuleLaunchCooperativeKernelMultiDevice (env : Env) (K : Consts) (ext : Nat → LaunchExt)
    (launchParamsList : List hipFunctionLaunchParams) (flags extFlags : Nat) : LaunchResult :=
  let numDevices := launchParamsList.length
  if numDevices = 0 ∨ numDevices > toUnsigned env.numActiveGPUs then ⟨hipErrorInvalidValue, []⟩
  else if flags > K.hipCooperativeLaunchMultiDeviceNoPostSync +
      K.hipCooperativeLaunchMultiDeviceNoPreSync then ⟨hipErrorInvalidValue, []⟩
  else
    match geometryPass launchParamsList 0 0 (List.replicate numDevices none) with
    | .error e => ⟨e, []⟩
    | .ok allGridSize =>
      let dispatched := dispatchLoop env K ext flags extFlags numDevices allGridSize
        launchParamsList 0 0 0 env.deviceGetCountResult
      match dispatched.1 with
      | LoopExit.returned e => ⟨e, preSync env K launchParamsList flags ++ dispatched.2⟩
      | LoopExit.finished result =>
        ⟨result, preSync env K launchParamsList flags ++ dispatched.2 ++
          postSync env K launchParamsList flags⟩
      | LoopExit.divideByZero =>
        ⟨Outcome.divideByZero, preSync env K launchParamsList flags ++ dispatched.2⟩

/-- The statements of `ihipModuleLaunchCooperativeKernelMultiDevice` that follow the
admission step (from `uint64_t allGridSize = 0;` to the final `return result;`). -/
def afterAdmission (env : Env) (K : Consts) (ext : Nat → LaunchExt)
    (launchParamsList : List hipFunctionLaunchParams) (flags extFlags : Nat) : LaunchResult :=
  match geometryPass launchParamsList 0 0 (List.replicate launchParamsList.length none) with
  | .error e => ⟨e, []⟩
  | .ok allGridSize =>
    let dispatched := dispatchLoop env K ext flags extFlags launchParamsList.length allGridSize
      launchParamsList 0 0 0 env.deviceGetCountResult
    match dispatched.1 with
    | LoopExit.returned e => ⟨e, preSync env K launchParamsList flags ++ dispatched.2⟩
    | LoopExit.finished result =>
      ⟨result, preSync env K launchParamsList flags ++ dispatched.2 ++
        postSync env K launchParamsList flags⟩
    | LoopExit.divideByZero =>
      ⟨Outcome.divideByZero, preSync env K launchParamsList flags ++ dispatched.2⟩

/-- Largest value of `int32_t`, `std::numeric_limits<int32_t>::max()`. -/
def INT32_MAX : Nat := 2 ^ 31 - 1

/-- Largest value of `uint16_t`, `std::numeric_limits<uint16_t>::max()`. -/
def UINT16_MAX : Nat := 2 ^ 16 - 1

/-- Conversion `static_cast<uint32_t>(x)` of a `size_t`. -/
def toUint32 (x : Nat) : Nat := x % 2 ^ 32

/-- The function `hipModuleLaunchKernel`. The macros `HIP_INIT_API` and `STREAM_CAPTURE` and
the function `hip::isValid` are not defined in this file: `apiInit` and `capture` are
`some r` when the macro makes the function return `r`, and `isValid` is the result of
`hip::isValid(hStream)`. -/
def hipModuleLaunchKernel (env : Env) (K : Consts) (ext : LaunchExt)
    (apiInit : Option hipError_t) (isValid : Bool) (capture : Option hipError_t)
    (f : Option DeviceFunc)
    (gridDimX gridDimY gridDimZ blockDimX blockDimY blockDimZ sharedMemBytes : Nat)
    (hStream : Option Stream) (kernelParams extra : Option (Nat → Nat)) : LaunchResult :=
  match apiInit with
  | some r => ⟨r, []⟩
  | none =>
    if !isValid then ⟨hipErrorInvalidValue, []⟩
    else
      match capture with
      | some r => ⟨r, []⟩
      | none =>
        if gridDimX > INT32_MAX ∨ gridDimY > UINT16_MAX + 1 ∨ gridDimZ > UINT16_MAX + 1 then
          ⟨hipErrorInvalidValue, []⟩
        else
          let globalWorkSizeX := mul64 gridDimX blockDimX
          let globalWorkSizeY := mul64 gridDimY blockDimY
          let globalWorkSizeZ := mul64 gridDimZ blockDimZ
          if globalWorkSizeX > UINT32_MAX then ⟨hipErrorInvalidConfiguration, []⟩
          else
            ihipModuleLaunchKernel env K ext f (toUint32 globalWorkSizeX)
              (toUint32 globalWorkSizeY) (toUint32 globalWorkSizeZ) blockDimX blockDimY
              blockDimZ sharedMemBytes hStream kernelParams extra none none 0 0 0 0 0 0 0

/-- The function `hipModuleLaunchCooperativeKernel`; `apiInit` and `isValid` as for
`hipModuleLaunchKernel`. -/
def hipModuleLaunchCooperativeKernel (env : Env) (K : Consts) (ext : LaunchExt)
    (apiInit : Option hipError_t) (isValid : Bool) (f : Option DeviceFunc)
    (gridDimX gridDimY gridDimZ blockDimX blockDimY blockDimZ sharedMemBytes : Nat)
    (stream : Option Stream) (kernelParams : Option (Nat → Nat)) : LaunchResult :=
  match apiInit with
  | some r => ⟨r, []⟩
  | none =>
    if !isValid then ⟨hipErrorInvalidValue, []⟩
    else
      let globalWorkSizeX := mul64 gridDimX blockDimX
      let globalWorkSizeY := mul64 gridDimY blockDimY
      let globalWorkSizeZ := mul64 gridDimZ blockDimZ
      if globalWorkSizeX > UINT32_MAX ∨ globalWorkSizeY > UINT32_MAX ∨
          globalWorkSizeZ > UINT32_MAX then
        ⟨hipErrorInvalidConfiguration, []⟩
      else
        ihipModuleLaunchKernel env K ext f (toUint32 globalWorkSizeX) (toUint32 globalWorkSizeY)
          (toUint32 globalWorkSizeZ) blockDimX blockDimY blockDimZ sharedMemBytes stream
          kernelParams none none none 0 K.CooperativeGroups 0 0 0 0 0

/-- The function `hipLaunchCooperativeKernel_common`; `isValid` is the result of
`hip::isValid(hStream)` and `getStatFunc` the result code of
`PlatformState::instance().getStatFunc(&func, f, deviceId)` with the function it stores in
`func`, both outside this file. -/
def hipLaunchCooperativeKernel_common (env : Env) (K : Consts) (ext : LaunchExt)
    (isValid : Bool) (getStatFunc : hipError_t × Option DeviceFunc)
    (gridDim blockDim : Nat × Nat × Nat) (kernelParams : Option (Nat → Nat))
    (sharedMemBytes : Nat) (hStream : Option Stream) : LaunchResult :=
  if !isValid then ⟨hipErrorInvalidValue, []⟩
  else
    let deviceId := (env.getStream hStream).deviceId
    if getStatFunc.1 ≠ hipSuccess then ⟨getStatFunc.1, []⟩
    else
      let device := env.device deviceId
      let globalWorkSizeX := mul64 gridDim.1 blockDim.1
      let globalWorkSizeY := mul64 gridDim.2.1 blockDim.2.1
      let globalWorkSizeZ := mul64 gridDim.2.2 blockDim.2.2
      if globalWorkSizeX > UINT32_MAX ∨ globalWorkSizeY > UINT32_MAX ∨
          globalWorkSizeZ > UINT32_MAX ∨
          mul32 (mul32 blockDim.1 blockDim.2.1) blockDim.2.2 > device.info.maxWorkGroupSize_ then
        ⟨hipErrorInvalidConfiguration, []⟩
      else
        ihipModuleLaunchKernel env K ext getStatFunc.2 (toUint32 globalWorkSizeX)
          (toUint32 globalWorkSizeY) (toUint32 globalWorkSizeZ) blockDim.1 blockDim.2.1
          blockDim.2.2 sharedMemBytes hStream kernelParams none none none 0
          K.CooperativeGroups 0 0 0 0 0

/-- What `hipModuleGetGlobal` did: its result code and whether it called
`PlatformState::instance().getDynGlobalVar`. -/
structure GetGlobalResult where
  status : hipError_t
  lookedUp : Bool
  deriving DecidableEq, Repr

/-- The function `hipModuleGetGlobal`. The output pointers `dptr` and `bytes` and the module
handle are addresses (`0` is `nullptr`), `name` is `none` for a null pointer; `apiInit` is
`some r` when `HIP_INIT_API` makes the function return `r`, and `getDynGlobalVar` is the
result code of the lookup, outside this file. -/
def hipModuleGetGlobal (apiInit : Option hipError_t) (getDynGlobalVar : hipError_t)
    (dptr bytes hmod : Nat) (name : Option String) : GetGlobalResult :=
  match apiInit with
  | some r => ⟨r, false⟩
  | none =>
    if dptr = 0 ∨ bytes = 0 then ⟨hipSuccess, false⟩
    else if (dptr = 0 ∧ bytes = 0) ∨ name = none ∨ (name.getD "").length = 0 then
      ⟨hipErrorInvalidValue, false⟩
    else if hmod = 0 then ⟨hipErrorInvalidResourceHandle, false⟩
    else if hipSuccess ≠ getDynGlobalVar then ⟨hipErrorNotFound, true⟩
    else ⟨hipSuccess, true⟩

/-! ## The tests of `ihipLaunchKernel_validate`, one by one -/

/-- Test 1, `if (f == nullptr)`. -/
def checkFunction (f : Option DeviceFunc) : Option Outcome :=
  if f.isNone then some hipErrorInvalidImage else none

/-- Test 2, `if ((kernelParams != nullptr) && (extra != nullptr))`. -/
def checkArgumentSource (kernelParams extra : Option (Nat → Nat)) : Option Outcome :=
  if kernelParams.isSome ∧ extra.isSome then some hipErrorInvalidValue else none

/-- Test 3, the test of the six dimensions against zero. -/
def checkDimensions (globalWorkSizeX globalWorkSizeY globalWorkSizeZ blockDimX blockDimY
    blockDimZ : Nat) : Option Outcome :=
  if globalWorkSizeX = 0 ∨ globalWorkSizeY = 0 ∨ globalWorkSizeZ = 0 ∨ blockDimX = 0 ∨
      blockDimY = 0 ∨ blockDimZ = 0 then some hipErrorInvalidValue else none

/-- Test 4, `if (sharedMemBytes > info.localMemSizePerCU_)`. -/
def checkSharedMem (env : Env) (deviceId sharedMemBytes : Nat) : Option Outcome :=
  if sharedMemBytes > (env.device deviceId).info.localMemSizePerCU_ then
    some hipErrorInvalidValue
  else none

/-- Test 5, `if (blockDimX * blockDimY * blockDimZ > info.maxWorkGroupSize_)`. -/
def checkMaxWorkGroupSize (env : Env) (deviceId blockDimX blockDimY blockDimZ : Nat) :
    Option Outcome :=
  if mul32 (mul32 blockDimX blockDimY) blockDimZ > (env.device deviceId).info.maxWorkGroupSize_
  then some hipErrorInvalidValue
  else none

/-- Test 6, `if (!kernel->getDeviceKernel(*device))`; it needs a function. -/
def checkDeviceKernel (env : Env) (f : Option DeviceFunc) (deviceId : Nat) :
    Option Outcome :=
  match f with
  | some function =>
    if (function.getDeviceKernel (env.device deviceId).addr).isNone then
      some hipErrorInvalidDevice
    else none
  | none => none

/-- Test 7, the comparison with `workGroupInfo()->size_`; it needs a device kernel. -/
def checkLaunchBounds (env : Env) (f : Option DeviceFunc)
    (deviceId blockDimX blockDimY blockDimZ : Nat) : Option Outcome :=
  match f with
  | some function =>
    match function.getDeviceKernel (env.device deviceId).addr with
    | some deviceKernel =>
      if mul32 (mul32 blockDimX blockDimY) blockDimZ > deviceKernel.workGroupInfoSize_ then
        some hipErrorLaunchFailure
      else none
    | none => none
  | none => none

/-- Test 10, the test of the three markers of `extra`. -/
def checkFlatBuffer (K : Consts) (extra : Option (Nat → Nat)) : Option Outcome :=
  match extra with
  | some ex =>
    if ex 0 ≠ K.HIP_LAUNCH_PARAM_BUFFER_POINTER ∨ ex 2 ≠ K.HIP_LAUNCH_PARAM_BUFFER_SIZE ∨
        ex 4 ≠ K.HIP_LAUNCH_PARAM_END then
      some hipErrorInvalidValue
    else none
  | none => none

/-- The ten tests of `ihipLaunchKernel_validate` as the source computes them (products in
32 bits), in the order of the source, each evaluated on the input by itself: `some o` when
the function ends at the test with outcome `o`, `none` when the input passes it. -/
def testsOfValidate (env : Env) (K : Consts) (ext : LaunchExt) (f : Option DeviceFunc)
    (globalWorkSizeX globalWorkSizeY globalWorkSizeZ blockDimX blockDimY blockDimZ
      sharedMemBytes : Nat)
    (kernelParams extra : Option (Nat → Nat)) (deviceId : Nat) (params : Nat) :
    List (Option Outcome) :=
  [checkFunction f,
   checkArgumentSource kernelParams extra,
   checkDimensions globalWorkSizeX globalWorkSizeY globalWorkSizeZ blockDimX blockDimY blockDimZ,
   checkSharedMem env deviceId sharedMemBytes,
   checkMaxWorkGroupSize env deviceId blockDimX blockDimY blockDimZ,
   checkDeviceKernel env f deviceId,
   checkLaunchBounds env f deviceId blockDimX blockDimY blockDimZ,
   cooperativeGroupsCheck K ext (env.device deviceId).info globalWorkSizeX globalWorkSizeY
     globalWorkSizeZ blockDimX blockDimY blockDimZ params,
   cooperativeMultiDeviceCheck K (env.device deviceId).info params,
   checkFlatBuffer K extra]

/-- Modelled from the specification: the ten checks of the Launch Validator (section 4.1,
"Checks, in order (first failure wins)"), in the listed order, each evaluated on the input by
itself, the products being the exact products of the dimensions. `some e` when the input
fails the check, `e` being the reason the program gives at the corresponding test.
1. function reference non-null; 2. not both forms of the argument source supplied; 3. all six
dimensions non-zero; 4. shared-memory size within the per-compute-unit budget; 5. block
product within the maximum work-group size of the device; 6. the function has a resolved
entry point on the device; 7. block product within the declared launch-bound ceiling of the
kernel, if any; 8. with the cooperative flag, the device advertises cooperative support and
the requested number of blocks is within the occupancy-derived ceiling; 9. with the
multi-device flag, the device advertises multi-device cooperative support; 10. a supplied flat
buffer has the three markers in order (section 4.2) and is non-null when the kernel has
parameters. -/
def checksInSpecOrder (env : Env) (K : Consts) (ext : LaunchExt) (f : Option DeviceFunc)
    (globalWorkSizeX globalWorkSizeY globalWorkSizeZ blockDimX blockDimY blockDimZ
      sharedMemBytes : Nat)
    (kernelParams extra : Option (Nat → Nat)) (deviceId : Nat) (params : Nat) :
    List (Option hipError_t) :=
  let info := (env.device deviceId).info
  let blockProduct := blockDimX * blockDimY * blockDimZ
  let requestedBlocks := globalWorkSizeX * globalWorkSizeY * globalWorkSizeZ / blockProduct
  let entryPoint : Option DeviceKernel :=
    match f with
    | some function => function.getDeviceKernel (env.device deviceId).addr
    | none => none
  let numParameters : Nat :=
    match f with
    | some function => function.signature.length
    | none => 0
  [if f.isNone then some hipErrorInvalidImage else none,
   if kernelParams.isSome ∧ extra.isSome then some hipErrorInvalidValue else none,
   if globalWorkSizeX = 0 ∨ globalWorkSizeY = 0 ∨ globalWorkSizeZ = 0 ∨ blockDimX = 0 ∨
       blockDimY = 0 ∨ blockDimZ = 0 then some hipErrorInvalidValue else none,
   if sharedMemBytes > info.localMemSizePerCU_ then some hipErrorInvalidValue else none,
   if blockProduct > info.maxWorkGroupSize_ then some hipErrorInvalidValue else none,
   if entryPoint.isNone then some hipErrorInvalidDevice else none,
   (match entryPoint with
    | some deviceKernel =>
      if blockProduct > deviceKernel.workGroupInfoSize_ then some hipErrorLaunchFailure
      else none
    | none => none),
   if params &&& K.CooperativeGroups ≠ 0 then
     if !info.cooperativeGroups_ then some hipErrorLaunchFailure
     else if ext.occupancyErr ≠ hipSuccess then some ext.occupancyErr
     else if (requestedBlocks : Int) > ext.max_blocks_per_grid then
       some hipErrorCooperativeLaunchTooLarge
     else none
   else none,
   if params &&& K.CooperativeMultiDeviceGroups ≠ 0 then
     if !info.cooperativeMultiDeviceGroups_ then some hipErrorLaunchFailure else none
   else none,
   (match extra with
    | some ex =>
      if ex 0 ≠ K.HIP_LAUNCH_PARAM_BUFFER_POINTER ∨ ex 2 ≠ K.HIP_LAUNCH_PARAM_BUFFER_SIZE ∨
          ex 4 ≠ K.HIP_LAUNCH_PARAM_END ∨ (ex 1 = 0 ∧ numParameters ≠ 0) then
        some hipErrorInvalidValue
      else none
    | none => none)]

/-- First failure wins: the reason of the first failing check of a list, if any. -/
def firstFailure {α : Type} : List (Option α) → Option α
  | [] => none
  | some e :: _ => some e
  | none :: rest => firstFailure rest

/-! ## Reading a trace -/

/-- Whether a step is the entry marker of `ihipModuleLaunchKernel`. -/
def Event.isCall : Event → Bool
  | Event.call _ => true
  | _ => false

/-- Whether a step is a queue drain. -/
def Event.isFinish : Event → Bool
  | Event.finish _ => true
  | _ => false

/-- The arguments of the calls of `ihipModuleLaunchKernel` in a trace, in order. -/
def calls (t : List Event) : List LaunchCall :=
  t.filterMap (fun e => match e with
    | Event.call c => some c
    | _ => none)

/-- The queues drained in a trace, in order. -/
def finishes (t : List Event) : List Nat :=
  t.filterMap (fun e => match e with
    | Event.finish q => some q
    | _ => none)

/-- The steps of a trace that act on the program state, the entry markers left out. -/
def effects (t : List Event) : List Event :=
  t.filter (fun e => !e.isCall)

/-- A trace without entry markers and without queue drains. -/
def quiet (t : List Event) : Prop := ∀ e ∈ t, e.isCall = false ∧ e.isFinish = false

/-- The device address of an entry's stream, for an entry with a non-null stream. -/
def entryDevice (env : Env) (e : hipFunctionLaunchParams) : Nat :=
  (env.getStream e.hStream).device.addr

/-- The steps of a trace before the first entry into `ihipModuleLaunchKernel`. -/
def beforeFirstCall (t : List Event) : List Event :=
  t.takeWhile (fun e => !e.isCall)

/-- The steps of a trace after the last entry into `ihipModuleLaunchKernel`. -/
def afterLastCall (t : List Event) : List Event :=
  (t.reverse.takeWhile (fun e => !e.isCall)).reverse

/-- The value of `firstDevice` once the dispatch loop, entered at index `i` with the value
`fd`, has passed its first iteration. -/
def firstDeviceAfter (env : Env) (es : List hipFunctionLaunchParams) (i fd : Nat) : Nat :=
  match es with
  | [] => fd
  | e :: _ => if i = 0 then findFirstDevice env (env.getStream e.hStream) fd else fd

/-- The commands constructed in a trace, in order. -/
def commands (t : List Event) : List NDRangeKernelCommand :=
  t.filterMap (fun e => match e with
    | Event.newCommand cmd => some cmd
    | _ => none)

/-- The number of `command->release()` calls in a trace. -/
def releases (t : List Event) : Nat :=
  t.count Event.release

/-! ## Concrete inputs used to evaluate the code -/

/-- A device with a 1024-thread work-group limit and 64 KiB of local memory per CU. -/
def gpu (addr index : Nat) : Device :=
  { addr := addr, index := index,
    info := { localMemSizePerCU_ := 65536, maxWorkGroupSize_ := 1024,
              cooperativeGroups_ := true, cooperativeMultiDeviceGroups_ := true } }

/-- A stream on the `deviceId`-th device of the table below. -/
def streamOn (queue deviceId : Nat) : Stream :=
  { queue := queue, deviceId := deviceId, device := gpu (1000 + deviceId) deviceId }

/-- A process with two active devices. -/
def twoGpus : Env :=
  { g_devices := [gpu 1000 0, gpu 1001 1], numActiveGPUs := 2,
    deviceGetCountResult := hipSuccess, nullStream := streamOn 0 0 }

/-- A process with one active device. -/
def oneGpu : Env :=
  { g_devices := [gpu 1000 0], numActiveGPUs := 1,
    deviceGetCountResult := hipSuccess, nullStream := streamOn 0 0 }

/-- Collaborators that all succeed; the occupancy calculator allows 1024 blocks per grid. -/
def allOk : LaunchExt :=
  { initStatManagedVarDevicePtr := hipSuccess, occupancyErr := hipSuccess,
    max_blocks_per_grid := 1024, commandAllocated := true, captureOk := true,
    addMarker := hipSuccess, statusInvalidOperation := false }

/-- A kernel with one 8-byte pointer parameter, resolved on every device, with the given
launch-bound ceiling and uniform-work-group marking. -/
def kernelWith (size_ : Nat) (uniform : Bool) : DeviceFunc :=
  { kernel := 7, signature := [{ offset_ := 0, size_ := 8, isPointer := true }],
    getDeviceKernel := fun _ =>
      some { workGroupInfoSize_ := size_, uniformWorkGroupSize := uniform } }

/-- A pointer array whose entries all hold the address 4096. -/
def somePointers : Option (Nat → Nat) := some (fun _ => 4096)

/-- A launch-list entry for `kernelWith 1024 false` with the given grid, block and stream. -/
def entryOf (g b : Nat × Nat × Nat) (hStream : Option Stream) : hipFunctionLaunchParams :=
  { function := some (kernelWith 1024 false),
    gridDimX := g.1, gridDimY := g.2.1, gridDimZ := g.2.2,
    blockDimX := b.1, blockDimY := b.2.1, blockDimZ := b.2.2,
    sharedMemBytes := 0, hStream := hStream, kernelParams := somePointers }

/-- A process with three active devices. -/
def threeGpus : Env :=
  { g_devices := [gpu 1000 0, gpu 1001 1, gpu 1002 2], numActiveGPUs := 3,
    deviceGetCountResult := hipSuccess, nullStream := streamOn 0 0 }

/-- Three grids with the element counts 100, 200 and 50, on three devices. -/
def grids_100_200_50 : List hipFunctionLaunchParams :=
  [entryOf (100, 1, 1) (1, 1, 1) (some (streamOn 1 0)),
   entryOf (200, 1, 1) (1, 1, 1) (some (streamOn 2 1)),
   entryOf (50, 1, 1) (1, 1, 1) (some (streamOn 3 2))]

/-- Two grids, the first of `2 ^ 32` elements (per-axis global sizes `2 ^ 31`, 2, 1), the
second of 64 elements. -/
def grids_2p32_64 : List hipFunctionLaunchParams :=
  [entryOf (2097152, 2, 1) (1024, 1, 1) (some (streamOn 1 0)),
   entryOf (1, 1, 1) (64, 1, 1) (some (streamOn 2 1))]

/-- Two grids, the first of `2 ^ 64` elements (per-axis global sizes `2 ^ 22`, `2 ^ 21`,
`2 ^ 21`), the second of 64 elements. -/
def grids_2p64_64 : List hipFunctionLaunchParams :=
  [entryOf (4194304, 2097152, 2097152) (1, 1, 1) (some (streamOn 1 0)),
   entryOf (1, 1, 1) (64, 1, 1) (some (streamOn 2 1))]

/-- Two grids, the second with a global size of `2 ^ 32` on the X axis. -/
def grids_overflow_at_1 : List hipFunctionLaunchParams :=
  [entryOf (1, 1, 1) (64, 1, 1) (some (streamOn 1 0)),
   entryOf (2147483648, 1, 1) (2, 1, 1) (some (streamOn 2 1))]

/-- Two grids of 64 elements each whose streams are both bound to device 0. -/
def grids_same_device : List hipFunctionLaunchParams :=
  [entryOf (1, 1, 1) (64, 1, 1) (some (streamOn 1 0)),
   entryOf (1, 1, 1) (64, 1, 1) (some (streamOn 2 0))]

/-- Two well-formed grids of 64 elements each. -/
def grids_64_64 : List hipFunctionLaunchParams :=
  [entryOf (1, 1, 1) (64, 1, 1) (some (streamOn 1 0)),
   entryOf (1, 1, 1) (64, 1, 1) (some (streamOn 2 1))]

/-- Collaborators that succeed except that the command of entry 1 cannot be allocated. -/
def failAt1 (i : Nat) : LaunchExt :=
  if i = 1 then { allOk with commandAllocated := false } else allOk

/-- A kernel that is not resolved on any device. -/
def unresolvedKernel : DeviceFunc :=
  { kernel := 8, signature := [{ offset_ := 0, size_ := 8, isPointer := true }],
    getDeviceKernel := fun _ => none }

/-- Collaborators that succeed except that the start-event marker cannot be added. -/
def markerFails : LaunchExt :=
  { allOk with addMarker := hipErrorOutOfMemory }

/-- Collaborators that succeed except that the queue rejects the command. -/
def queueRejects : LaunchExt :=
  { allOk with statusInvalidOperation := true }

/-- A flat-buffer descriptor with the three markers in place and the buffer at 8192. -/
def flatBuffer : Nat → Nat
  | 0 => 1
  | 1 => 8192
  | 2 => 2
  | 4 => 3
  | _ => 0

/-- Three entries: the first two on device 0, the third with a zero block dimension and a
null stream. -/
def grids_repeat_then_zero_block : List hipFunctionLaunchParams :=
  [entryOf (1, 1, 1) (64, 1, 1) (some (streamOn 1 0)),
   entryOf (1, 1, 1) (64, 1, 1) (some (streamOn 2 0)),
   entryOf (1, 1, 1) (0, 1, 1) none]

/-- Three entries: the first with a zero block dimension, the other two on device 1. -/
def grids_zero_block_then_repeat : List hipFunctionLaunchParams :=
  [entryOf (1, 1, 1) (0, 1, 1) (some (streamOn 1 0)),
   entryOf (1, 1, 1) (64, 1, 1) (some (streamOn 2 1)),
   entryOf (1, 1, 1) (64, 1, 1) (some (streamOn 3 1))]

/-- Three entries: the first with a null stream, the other two on device 1. -/
def grids_null_stream_then_repeat : List hipFunctionLaunchParams :=
  [entryOf (1, 1, 1) (64, 1, 1) none,
   entryOf (1, 1, 1) (64, 1, 1) (some (streamOn 2 1)),
   entryOf (1, 1, 1) (64, 1, 1) (some (streamOn 3 1))]

/-- Collaborators that succeed except that the prelude `initStatManagedVarDevicePtr` fails. -/
def preludeFails : LaunchExt :=
  { allOk with initStatManagedVarDevicePtr := hipErrorOutOfMemory }

/-! ## Lemmas on the shape of traces and on the loops -/

/-- A chain of two 32-bit products is the exact product reduced modulo `2 ^ 32`. -/
theorem mul32_mul32 (a b c : Nat) : mul32 (mul32 a b) c = (a * b * c) % 2 ^ 32 := by
  unfold mul32
  rw [Nat.mul_mod, Nat.mod_mod, ← Nat.mul_mod]

theorem quiet_nil : quiet [] := by
  intro e he
  cases he

theorem quiet_append {s t : List Event} (hs : quiet s) (ht : quiet t) : quiet (s ++ t) := by
  intro e he
  rcases List.mem_append.mp he with h | h
  · exact hs e h
  · exact ht e h

theorem calls_of_quiet {t : List Event} (h : quiet t) : calls t = [] := by
  induction t with
  | nil => rfl
  | cons e rest ih =>
    have he := (h e (List.mem_cons_self _ _)).1
    have hr : quiet rest := fun x hx => h x (List.mem_cons_of_mem _ hx)
    cases e <;> simp [Event.isCall] at he <;> simpa [calls] using ih hr

theorem quiet_setParameters (kernel : Nat) (kernelParams : Option (Nat → Nat))
    (kernargs : Nat) (sig : List KernelParameterDescriptor) (i : Nat) :
    quiet (setParameters kernel kernelParams kernargs i sig) := by
  induction sig generalizing i with
  | nil => exact quiet_nil
  | cons desc rest ih =>
    intro e he
    simp only [setParameters, List.mem_cons] at he
    rcases he with h | h
    · cases kernelParams <;> simp [h, Event.isCall, Event.isFinish]
    · exact ih (i + 1) e h

theorem quiet_bindArguments (K : Consts) (function : DeviceFunc)
    (kernelParams extra : Option (Nat → Nat)) :
    quiet (bindArguments K function kernelParams extra).trace := by
  unfold bindArguments
  split
  · split
    · exact quiet_nil
    · exact quiet_setParameters _ _ _ _ _
  · exact quiet_setParameters _ _ _ _ _

theorem quiet_validate (env : Env) (K : Consts) (ext : LaunchExt) (f : Option DeviceFunc)
    (gX gY gZ bX bY bZ sharedMemBytes : Nat) (kernelParams extra : Option (Nat → Nat))
    (deviceId params : Nat) :
    quiet (ihipLaunchKernel_validate env K ext f gX gY gZ bX bY bZ sharedMemBytes kernelParams
      extra deviceId params).trace := by
  unfold ihipLaunchKernel_validate
  dsimp only
  repeat' split
  all_goals first | exact quiet_nil | exact quiet_bindArguments _ _ _ _

theorem quiet_command (K : Consts) (ext : LaunchExt) (function : DeviceFunc)
    (gX gY gZ bX bY bZ sharedMemBytes : Nat) (stream : Stream)
    (startEvent stopEvent : Option HipEvent)
    (flags params gridId numGrids prevGridSum allGridSum firstDevice : Nat) :
    quiet (ihipLaunchKernelCommand K ext function gX gY gZ bX bY bZ sharedMemBytes stream
      startEvent stopEvent flags params gridId numGrids prevGridSum allGridSum
      firstDevice).2.2 := by
  unfold ihipLaunchKernelCommand
  dsimp only
  repeat' split
  all_goals simp [quiet, Event.isCall, Event.isFinish]

theorem quiet_enqueueCommand (K : Consts) (ext : LaunchExt) (command : NDRangeKernelCommand)
    (stream : Stream) (startEvent stopEvent : Option HipEvent) :
    quiet (enqueueCommand K ext command stream startEvent stopEvent).trace := by
  unfold enqueueCommand
  dsimp only
  cases startEvent <;> cases stopEvent <;> (repeat' split) <;>
    simp [quiet, Event.isCall, Event.isFinish]

/-- The trace of one launch is its entry marker followed by steps that are neither entry
markers nor queue drains. -/
theorem launch_trace (env : Env) (K : Consts) (ext : LaunchExt) (f : Option DeviceFunc)
    (gX gY gZ bX bY bZ sharedMemBytes : Nat) (hStream : Option Stream)
    (kernelParams extra : Option (Nat → Nat)) (startEvent stopEvent : Option HipEvent)
    (flags params gridId numGrids prevGridSum allGridSum firstDevice : Nat) :
    ∃ rest, quiet rest ∧
      (ihipModuleLaunchKernel env K ext f gX gY gZ bX bY bZ sharedMemBytes hStream kernelParams
        extra startEvent stopEvent flags params gridId numGrids prevGridSum allGridSum
        firstDevice).trace =
      Event.call
        { globalWorkSize := (gX, gY, gZ), blockDim := (bX, bY, bZ),
          sharedMemBytes := sharedMemBytes, flags := flags, params := params, gridId := gridId,
          numGrids := numGrids, prevGridSum := prevGridSum, allGridSum := allGridSum,
          firstDevice := firstDevice } :: rest := by
  unfold ihipModuleLaunchKernel
  dsimp only
  split
  · exact ⟨[], quiet_nil, rfl⟩
  · cases f with
    | none => exact ⟨[], quiet_nil, rfl⟩
    | some function =>
      have hv := quiet_validate env K ext (some function) gX gY gZ bX bY bZ sharedMemBytes
        kernelParams extra (env.getStream hStream).deviceId params
      have hc := quiet_command K ext function gX gY gZ (clampBlock gX bX) (clampBlock gY bY)
        (clampBlock gZ bZ) sharedMemBytes (env.getStream hStream) startEvent stopEvent
        flags params gridId numGrids prevGridSum allGridSum firstDevice
      dsimp only
      split
      · exact ⟨_, hv, rfl⟩
      · split
        · exact ⟨_, hv, rfl⟩
        · split
          · rename_i h
            rw [h] at hc
            exact ⟨_, quiet_append (quiet_append hv hc) (quiet_enqueueCommand _ _ _ _ _ _),
              by rw [List.cons_append, List.cons_append]⟩
          · rename_i h
            rw [h] at hc
            exact ⟨_, quiet_append hv hc, by rw [List.cons_append]⟩

theorem calls_cons_call (c : LaunchCall) (t : List Event) :
    calls (Event.call c :: t) = c :: calls t := rfl

theorem calls_append (s t : List Event) : calls (s ++ t) = calls s ++ calls t := by
  simp [calls, List.filterMap_append]

theorem finishes_append (s t : List Event) : finishes (s ++ t) = finishes s ++ finishes t := by
  simp [finishes, List.filterMap_append]

theorem calls_finishAll (env : Env) (l : List hipFunctionLaunchParams) :
    calls (finishAll env l) = [] := by
  induction l with
  | nil => rfl
  | cons a rest ih => simp [finishAll, calls]

theorem finishes_finishAll (env : Env) (l : List hipFunctionLaunchParams) :
    finishes (finishAll env l) = l.map (fun launch => (env.getStream launch.hStream).queue) := by
  induction l with
  | nil => rfl
  | cons a rest ih => simpa [finishAll, finishes] using ih

/-- The element count added to `prevGridSize` is the exact product modulo `2 ^ 64`. -/
theorem count64_mod (a b c d e f : Nat) :
    mul64 (mul64 (mul64 a b) (mul64 c d)) (mul64 e f) = (a * b * (c * d) * (e * f)) % 2 ^ 64 := by
  unfold mul64
  simp [Nat.mul_mod, Nat.mod_mod]

/-- The calls made by the dispatch loop: the `k`-th one carries grid id `i + k`, the grand
total and grid count it was given, and the start value of `prevGridSize` plus the exact
element counts of the entries before it, modulo `2 ^ 64`. -/
theorem dispatchLoop_calls (env : Env) (K : Consts) (ext : Nat → LaunchExt)
    (flags extFlags numDevices allGridSize : Nat) :
    ∀ (es : List hipFunctionLaunchParams) (i prev fd : Nat) (res : hipError_t) (k : Nat)
      (c : LaunchCall), prev < 2 ^ 64 →
      (calls (dispatchLoop env K ext flags extFlags numDevices allGridSize es i prev fd
        res).2)[k]? = some c →
      c.gridId = i + k ∧ c.numGrids = numDevices ∧ c.allGridSum = allGridSize ∧
      c.prevGridSum = (prev + ((es.take k).map (fun l =>
        l.gridDimX * l.blockDimX * (l.gridDimY * l.blockDimY) *
          (l.gridDimZ * l.blockDimZ))).sum) % 2 ^ 64 := by
  intro es
  induction es with
  | nil =>
    intro i prev fd res k c _ h
    simp [dispatchLoop, calls] at h
  | cons e rest ih =>
    intro i prev fd res k c hprev h
    unfold dispatchLoop at h
    dsimp only at h
    generalize (if i = 0 then findFirstDevice env (env.getStream e.hStream) fd else fd) = fd1
      at h
    split at h
    · simp [calls] at h
    · obtain ⟨tl, htl, htrace⟩ := launch_trace env K (ext i) e.function
        (mul64 e.gridDimX e.blockDimX) (mul64 e.gridDimY e.blockDimY)
        (mul64 e.gridDimZ e.blockDimZ) e.blockDimX e.blockDimY e.blockDimZ e.sharedMemBytes
        e.hStream e.kernelParams none none none flags extFlags i numDevices prev allGridSize
        fd1
      split at h
      · rw [htrace, calls_cons_call, calls_of_quiet htl] at h
        cases k with
        | zero =>
          simp only [List.getElem?_cons_zero, Option.some.injEq] at h
          subst h
          refine ⟨rfl, rfl, rfl, ?_⟩
          simp only [List.take_zero, List.map_nil, List.sum_nil, Nat.add_zero]
          exact (Nat.mod_eq_of_lt hprev).symm
        | succ k => simp at h
      · split at h
        · rw [htrace, calls_cons_call, calls_of_quiet htl] at h
          cases k with
          | zero =>
            simp only [List.getElem?_cons_zero, Option.some.injEq] at h
            subst h
            refine ⟨rfl, rfl, rfl, ?_⟩
            simp only [List.take_zero, List.map_nil, List.sum_nil, Nat.add_zero]
            exact (Nat.mod_eq_of_lt hprev).symm
          | succ k => simp at h
        · dsimp only at h
          rw [htrace, calls_append, calls_cons_call, calls_of_quiet htl] at h
          cases k with
          | zero =>
            simp only [List.cons_append, List.getElem?_cons_zero, Option.some.injEq] at h
            subst h
            refine ⟨rfl, rfl, rfl, ?_⟩
            simp only [List.take_zero, List.map_nil, List.sum_nil, Nat.add_zero]
            exact (Nat.mod_eq_of_lt hprev).symm
          | succ k =>
            simp only [List.cons_append, List.nil_append, List.getElem?_cons_succ] at h
            have hlt : add64 prev (mul64 (mul64 (mul64 e.gridDimX e.blockDimX)
                (mul64 e.gridDimY e.blockDimY)) (mul64 e.gridDimZ e.blockDimZ)) < 2 ^ 64 :=
              Nat.mod_lt _ (by norm_num)
            obtain ⟨h1, h2, h3, h4⟩ := ih _ _ _ _ k c hlt h
            refine ⟨by omega, h2, h3, ?_⟩
            rw [h4, count64_mod]
            simp only [List.take_succ_cons, List.map_cons, List.sum_cons, add64]
            generalize e.gridDimX * e.blockDimX * (e.gridDimY * e.blockDimY) *
              (e.gridDimZ * e.blockDimZ) = x
            generalize (List.map (fun l : hipFunctionLaunchParams =>
              l.gridDimX * l.blockDimX * (l.gridDimY * l.blockDimY) *
                (l.gridDimZ * l.blockDimZ)) (List.take k rest)).sum = y
            omega

/-- The calls in the trace of the coordinator are those of its dispatch loop, if any. -/
theorem coordinator_calls (env : Env) (K : Consts) (ext : Nat → LaunchExt)
    (l : List hipFunctionLaunchParams) (flags extFlags : Nat) :
    calls (ihipModuleLaunchCooperativeKernelMultiDevice env K ext l flags extFlags).trace = [] ∨
    ∃ allGridSize,
      calls (ihipModuleLaunchCooperativeKernelMultiDevice env K ext l flags extFlags).trace =
        calls (dispatchLoop env K ext flags extFlags l.length allGridSize l 0 0 0
          env.deviceGetCountResult).2 := by
  unfold ihipModuleLaunchCooperativeKernelMultiDevice
  dsimp only
  split
  · exact Or.inl rfl
  · split
    · exact Or.inl rfl
    · split
      · exact Or.inl rfl
      · rename_i allGridSize _
        refine Or.inr ⟨allGridSize, ?_⟩
        have hpre : calls (preSync env K l flags) = [] := by
          unfold preSync
          split
          · exact calls_finishAll env l
          · rfl
        have hpost : calls (postSync env K l flags) = [] := by
          unfold postSync
          split
          · exact calls_finishAll env l
          · rfl
        split
        · rw [calls_append, hpre, List.nil_append]
        · rw [calls_append, calls_append, hpre, hpost, List.nil_append, List.append_nil]
        · rw [calls_append, hpre, List.nil_append]

theorem mem_mgpu (pre : List Nat) (n a : Nat) :
    some a ∈ pre.map some ++ List.replicate n (none : Option Nat) ↔ a ∈ pre := by
  simp [List.mem_append, List.mem_replicate]

theorem set_mgpu (pre : List Nat) (n a : Nat) :
    (pre.map some ++ List.replicate (n + 1) (none : Option Nat)).set pre.length (some a) =
      (pre ++ [a]).map some ++ List.replicate n none := by
  induction pre with
  | nil => simp [List.replicate_succ]
  | cons x xs ih => simpa using ih

theorem finishes_of_noFinish {t : List Event} (h : ∀ e ∈ t, e.isFinish = false) :
    finishes t = [] := by
  induction t with
  | nil => rfl
  | cons e rest ih =>
    have he := h e (List.mem_cons_self _ _)
    have hr : ∀ x ∈ rest, x.isFinish = false := fun x hx => h x (List.mem_cons_of_mem _ hx)
    cases e <;> simp [Event.isFinish] at he <;> simpa [finishes] using ih hr

theorem finishAll_not_call (env : Env) (l : List hipFunctionLaunchParams) :
    ∀ e ∈ finishAll env l, (!e.isCall) = true := by
  intro e he
  simp only [finishAll, List.mem_map] at he
  obtain ⟨a, _, rfl⟩ := he
  rfl

/-- The steps of the dispatch loop contain no queue drain. -/
theorem dispatchLoop_noFinish (env : Env) (K : Consts) (ext : Nat → LaunchExt)
    (flags extFlags numDevices allGridSize : Nat) :
    ∀ (es : List hipFunctionLaunchParams) (i prev fd : Nat) (res : hipError_t),
      ∀ e ∈ (dispatchLoop env K ext flags extFlags numDevices allGridSize es i prev fd res).2,
        e.isFinish = false := by
  intro es
  induction es with
  | nil =>
    intro i prev fd res e he
    simp [dispatchLoop] at he
  | cons a rest ih =>
    intro i prev fd res e he
    unfold dispatchLoop at he
    dsimp only at he
    generalize (if i = 0 then findFirstDevice env (env.getStream a.hStream) fd else fd) = fd1
      at he
    have hl : ∀ x ∈ (ihipModuleLaunchKernel env K (ext i) a.function
        (mul64 a.gridDimX a.blockDimX) (mul64 a.gridDimY a.blockDimY)
        (mul64 a.gridDimZ a.blockDimZ) a.blockDimX a.blockDimY a.blockDimZ a.sharedMemBytes
        a.hStream a.kernelParams none none none flags extFlags i numDevices prev allGridSize
        fd1).trace, x.isFinish = false := by
      obtain ⟨tl, htl, htrace⟩ := launch_trace env K (ext i) a.function
        (mul64 a.gridDimX a.blockDimX) (mul64 a.gridDimY a.blockDimY)
        (mul64 a.gridDimZ a.blockDimZ) a.blockDimX a.blockDimY a.blockDimZ a.sharedMemBytes
        a.hStream a.kernelParams none none none flags extFlags i numDevices prev allGridSize
        fd1
      intro x hx
      rw [htrace] at hx
      rcases List.mem_cons.mp hx with h | h
      · rw [h]
        rfl
      · exact (htl x h).2
    split at he
    · simp at he
    · split at he
      · exact hl e he
      · split at he
        · exact hl e he
        · rcases List.mem_append.mp he with h | h
          · exact hl e h
          · exact ih _ _ _ _ e h

/-- The cooperative block divides by the 32-bit block product: with a non-zero product it
does not end in a division by zero. -/
theorem cooperativeGroupsCheck_returns (K : Consts) (ext : LaunchExt) (info : DeviceInfo)
    (gX gY gZ bX bY bZ params : Nat) (hb : mul32 (mul32 bX bY) bZ ≠ 0) :
    cooperativeGroupsCheck K ext info gX gY gZ bX bY bZ params ≠ some Outcome.divideByZero := by
  unfold cooperativeGroupsCheck
  dsimp only
  rw [if_neg hb]
  repeat' split
  all_goals simp

/-- The tail of the validation returns. -/
theorem bindArguments_returns (K : Consts) (function : DeviceFunc)
    (kernelParams extra : Option (Nat → Nat)) :
    (bindArguments K function kernelParams extra).status ≠ Outcome.divideByZero := by
  unfold bindArguments
  repeat' split
  all_goals simp

/-- With a non-zero 32-bit block product `ihipLaunchKernel_validate` returns. -/
theorem validate_returns (env : Env) (K : Consts) (ext : LaunchExt) (f : Option DeviceFunc)
    (gX gY gZ bX bY bZ sharedMemBytes : Nat) (kernelParams extra : Option (Nat → Nat))
    (deviceId params : Nat) (hb : mul32 (mul32 bX bY) bZ ≠ 0) :
    (ihipLaunchKernel_validate env K ext f gX gY gZ bX bY bZ sharedMemBytes kernelParams extra
      deviceId params).status ≠ Outcome.divideByZero := by
  have hc := cooperativeGroupsCheck_returns K ext (env.device deviceId).info gX gY gZ bX bY bZ
    params hb
  unfold ihipLaunchKernel_validate
  dsimp only
  cases f with
  | none => simp
  | some function =>
    dsimp only
    split
    · simp
    · split
      · simp
      · split
        · simp
        · split
          · simp
          · split
            · simp
            · split
              · simp
              · split
                · rename_i o ho
                  intro h
                  dsimp only at h
                  rw [h] at ho
                  exact hc ho
                · split
                  · rename_i o ho
                    unfold cooperativeMultiDeviceCheck at ho
                    intro h
                    dsimp only at h
                    rw [h] at ho
                    revert ho
                    repeat' split
                    all_goals simp
                  · exact bindArguments_returns K function kernelParams extra

/-- With a non-zero 32-bit block product `ihipModuleLaunchKernel` returns. -/
theorem launch_returns (env : Env) (K : Consts) (ext : LaunchExt) (f : Option DeviceFunc)
    (gX gY gZ bX bY bZ sharedMemBytes : Nat) (hStream : Option Stream)
    (kernelParams extra : Option (Nat → Nat)) (startEvent stopEvent : Option HipEvent)
    (flags params gridId numGrids prevGridSum allGridSum firstDevice : Nat)
    (hb : mul32 (mul32 bX bY) bZ ≠ 0) :
    (ihipModuleLaunchKernel env K ext f gX gY gZ bX bY bZ sharedMemBytes hStream kernelParams
      extra startEvent stopEvent flags params gridId numGrids prevGridSum allGridSum
      firstDevice).status ≠ Outcome.divideByZero := by
  unfold ihipModuleLaunchKernel
  dsimp only
  split
  · simp
  · cases f with
    | none => simp
    | some function =>
      dsimp only
      split
      · exact validate_returns env K ext (some function) gX gY gZ bX bY bZ sharedMemBytes
          kernelParams extra (env.getStream hStream).deviceId params hb
      · split
        · simp
        · split
          · dsimp only
            unfold enqueueCommand
            dsimp only
            repeat' split
            all_goals simp
          · rename_i h
            dsimp only
            unfold ihipLaunchKernelCommand at h
            dsimp only at h
            intro hz
            revert h
            repeat' split
            all_goals simp_all

/-- The dispatch loop on a non-empty list either leaves at once through its `return`,
having done nothing, or begins by entering `ihipModuleLaunchKernel`. -/
theorem dispatchLoop_cons_shape (env : Env) (K : Consts) (ext : Nat → LaunchExt)
    (flags extFlags numDevices allGridSize : Nat) (a : hipFunctionLaunchParams)
    (rest : List hipFunctionLaunchParams) (i prev fd : Nat) (res : hipError_t) :
    dispatchLoop env K ext flags extFlags numDevices allGridSize (a :: rest) i prev fd res =
      (LoopExit.returned hipErrorInvalidConfiguration, []) ∨
    ∃ c t, (dispatchLoop env K ext flags extFlags numDevices allGridSize (a :: rest) i prev fd
      res).2 = Event.call c :: t := by
  unfold dispatchLoop
  dsimp only
  generalize (if i = 0 then findFirstDevice env (env.getStream a.hStream) fd else fd) = fd1
  obtain ⟨tl, htl, htrace⟩ := launch_trace env K (ext i) a.function
    (mul64 a.gridDimX a.blockDimX) (mul64 a.gridDimY a.blockDimY)
    (mul64 a.gridDimZ a.blockDimZ) a.blockDimX a.blockDimY a.blockDimZ a.sharedMemBytes
    a.hStream a.kernelParams none none none flags extFlags i numDevices prev allGridSize
    fd1
  split
  · exact Or.inl rfl
  · split
    · exact Or.inr ⟨_, _, htrace⟩
    · split
      · exact Or.inr ⟨_, _, htrace⟩
      · right
        dsimp only
        rw [htrace, List.cons_append]
        exact ⟨_, _, rfl⟩

/-- When every per-axis global size fits in 32 bits and every 32-bit block product is
non-zero (as the first loop requires), the dispatch loop is not left through its `return` and
every launch returns. -/
theorem dispatchLoop_finished_of_fit (env : Env) (K : Consts) (ext : Nat → LaunchExt)
    (flags extFlags numDevices allGridSize : Nat) :
    ∀ (es : List hipFunctionLaunchParams) (i prev fd : Nat) (res : hipError_t),
      (∀ e ∈ es, e.gridDimX * e.blockDimX ≤ UINT32_MAX ∧ e.gridDimY * e.blockDimY ≤ UINT32_MAX ∧
        e.gridDimZ * e.blockDimZ ≤ UINT32_MAX) →
      (∀ e ∈ es, mul32 (mul32 e.blockDimX e.blockDimY) e.blockDimZ ≠ 0) →
      ∃ result, (dispatchLoop env K ext flags extFlags numDevices allGridSize es i prev fd
        res).1 = LoopExit.finished result := by
  intro es
  induction es with
  | nil =>
    intro i prev fd res _ _
    exact ⟨res, rfl⟩
  | cons a rest ih =>
    intro i prev fd res hfit hblock
    obtain ⟨hx, hy, hz⟩ := hfit a (List.mem_cons_self _ _)
    have hret := fun fd1 => launch_returns env K (ext i) a.function
      (mul64 a.gridDimX a.blockDimX) (mul64 a.gridDimY a.blockDimY)
      (mul64 a.gridDimZ a.blockDimZ) a.blockDimX a.blockDimY a.blockDimZ a.sharedMemBytes
      a.hStream a.kernelParams none none none flags extFlags i numDevices prev allGridSize fd1
      (hblock a (List.mem_cons_self _ _))
    have hle : ∀ n, n ≤ UINT32_MAX → ¬ (n % 2 ^ 64 > UINT32_MAX) := by
      intro n hn
      have := Nat.mod_le n (2 ^ 64)
      omega
    unfold dispatchLoop
    dsimp only
    generalize (if i = 0 then findFirstDevice env (env.getStream a.hStream) fd else fd) = fd1
    rw [if_neg (by
      unfold mul64
      intro h
      rcases h with h | h | h
      · exact hle _ hx h
      · exact hle _ hy h
      · exact hle _ hz h)]
    split
    · rename_i hz
      exact absurd hz (hret fd1)
    · split
      · exact ⟨_, rfl⟩
      · exact ih _ _ _ _ (fun e he => hfit e (List.mem_cons_of_mem _ he))
          (fun e he => hblock e (List.mem_cons_of_mem _ he))

/-- The first loop accepts a list whose entries all have a non-zero 32-bit block product and
a non-null stream when the devices seen so far and those of the entries are all distinct. -/
theorem geometryPass_ok (env : Env) :
    ∀ (es : List hipFunctionLaunchParams) (pre : List Nat) (allGridSize : Nat),
      (∀ e ∈ es, mul32 (mul32 e.blockDimX e.blockDimY) e.blockDimZ ≠ 0 ∧ e.hStream ≠ none) →
      (pre ++ es.map (entryDevice env)).Nodup →
      ∃ total, geometryPass es pre.length allGridSize
        (pre.map some ++ List.replicate es.length none) = .ok total := by
  intro es
  induction es with
  | nil =>
    intro pre allGridSize _ _
    exact ⟨allGridSize, rfl⟩
  | cons e rest ih =>
    intro pre allGridSize hvalid hnd
    obtain ⟨hb, hs⟩ := hvalid e (List.mem_cons_self _ _)
    obtain ⟨s, hs⟩ := Option.ne_none_iff_exists'.mp hs
    have hdev : entryDevice env e = s.device.addr := by simp [entryDevice, Env.getStream, hs]
    have hmem : s.device.addr ∉ pre := by
      intro hm
      rw [List.map_cons, hdev] at hnd
      have := (List.nodup_append.mp hnd).2.2
      exact this hm (List.mem_cons_self _ _)
    unfold geometryPass
    dsimp only
    rw [if_neg hb]
    simp only [hs]
    rw [if_neg (fun h => hmem ((mem_mgpu pre _ _).mp h))]
    rw [List.length_cons, set_mgpu]
    have hlen : pre.length + 1 = (pre ++ [s.device.addr]).length := by simp
    rw [hlen]
    apply ih
    · exact fun x hx => hvalid x (List.mem_cons_of_mem _ hx)
    · simpa [hdev, List.append_assoc] using hnd

/-- The trace of the coordinator: empty when the list is rejected before the barriers, else
the pre-synchronization drains, the steps of the dispatch loop and a tail that holds the
post-synchronization drains unless the loop was left through its `return`. -/
theorem coordinator_trace (env : Env) (K : Consts) (ext : Nat → LaunchExt)
    (l : List hipFunctionLaunchParams) (flags extFlags : Nat) :
    (ihipModuleLaunchCooperativeKernelMultiDevice env K ext l flags extFlags).trace = [] ∨
    ∃ allGridSize tail,
      (ihipModuleLaunchCooperativeKernelMultiDevice env K ext l flags extFlags).trace =
        preSync env K l flags ++
        (dispatchLoop env K ext flags extFlags l.length allGridSize l 0 0 0
          env.deviceGetCountResult).2 ++ tail ∧
      (tail = [] ∨ tail = postSync env K l flags) ∧
      ((∃ result, (dispatchLoop env K ext flags extFlags l.length allGridSize l 0 0 0
          env.deviceGetCountResult).1 = LoopExit.finished result) →
        tail = postSync env K l flags) ∧
      ((∃ e, (dispatchLoop env K ext flags extFlags l.length allGridSize l 0 0 0
          env.deviceGetCountResult).1 = LoopExit.returned e) → tail = []) := by
  unfold ihipModuleLaunchCooperativeKernelMultiDevice
  dsimp only
  split
  · exact Or.inl rfl
  · split
    · exact Or.inl rfl
    · split
      · exact Or.inl rfl
      · rename_i allGridSize _
        right
        split
        · rename_i e hd
          refine ⟨allGridSize, [], by simp, Or.inl rfl, ?_, fun _ => rfl⟩
          rintro ⟨result, hr⟩
          rw [hd] at hr
          cases hr
        · rename_i result hd
          refine ⟨allGridSize, _, rfl, Or.inr rfl, fun _ => rfl, ?_⟩
          rintro ⟨e, hr⟩
          rw [hd] at hr
          cases hr
        · rename_i hd
          refine ⟨allGridSize, [], by simp, Or.inl rfl, ?_, fun _ => rfl⟩
          rintro ⟨result, hr⟩
          rw [hd] at hr
          cases hr

/-- An accepted list is not rejected before the barriers. -/
theorem coordinator_trace_of_accepted (env : Env) (K : Consts) (ext : Nat → LaunchExt)
    (l : List hipFunctionLaunchParams) (flags extFlags : Nat)
    (hAdmit : l.length ≠ 0 ∧ l.length ≤ toUnsigned env.numActiveGPUs ∧
      flags ≤ K.hipCooperativeLaunchMultiDeviceNoPostSync +
        K.hipCooperativeLaunchMultiDeviceNoPreSync)
    (hValid : ∀ e ∈ l, mul32 (mul32 e.blockDimX e.blockDimY) e.blockDimZ ≠ 0 ∧
      e.hStream ≠ none)
    (hDistinct : (l.map (entryDevice env)).Nodup) :
    ∃ allGridSize tail,
      (ihipModuleLaunchCooperativeKernelMultiDevice env K ext l flags extFlags).trace =
        preSync env K l flags ++
        (dispatchLoop env K ext flags extFlags l.length allGridSize l 0 0 0
          env.deviceGetCountResult).2 ++ tail ∧
      (tail = [] ∨ tail = postSync env K l flags) ∧
      ((∃ result, (dispatchLoop env K ext flags extFlags l.length allGridSize l 0 0 0
          env.deviceGetCountResult).1 = LoopExit.finished result) →
        tail = postSync env K l flags) ∧
      ((∃ e, (dispatchLoop env K ext flags extFlags l.length allGridSize l 0 0 0
          env.deviceGetCountResult).1 = LoopExit.returned e) → tail = []) := by
  obtain ⟨total, hgp⟩ := geometryPass_ok env l [] 0 hValid (by simpa using hDistinct)
  simp only [List.length_nil, List.map_nil, List.nil_append] at hgp
  unfold ihipModuleLaunchCooperativeKernelMultiDevice
  dsimp only
  rw [if_neg (by omega), if_neg (by omega), hgp]
  dsimp only
  split
  · rename_i e hd
    refine ⟨total, [], by simp, Or.inl rfl, ?_, fun _ => rfl⟩
    rintro ⟨result, hr⟩
    rw [hd] at hr
    cases hr
  · rename_i result hd
    refine ⟨total, _, rfl, Or.inr rfl, fun _ => rfl, ?_⟩
    rintro ⟨e, hr⟩
    rw [hd] at hr
    cases hr
  · rename_i hd
    refine ⟨total, [], by simp, Or.inl rfl, ?_, fun _ => rfl⟩
    rintro ⟨result, hr⟩
    rw [hd] at hr
    cases hr

theorem preSync_not_call (env : Env) (K : Consts) (l : List hipFunctionLaunchParams)
    (flags : Nat) : ∀ e ∈ preSync env K l flags, (!e.isCall) = true := by
  unfold preSync
  split
  · exact finishAll_not_call env l
  · intro e he
    cases he

theorem postSync_not_call (env : Env) (K : Consts) (l : List hipFunctionLaunchParams)
    (flags : Nat) : ∀ e ∈ postSync env K l flags, (!e.isCall) = true := by
  unfold postSync
  split
  · exact finishAll_not_call env l
  · intro e he
    cases he

/-- What precedes the first entry marker of `pre ++ call :: t`, for `pre` without markers. -/
theorem beforeFirstCall_append_call (pre t : List Event) (c : LaunchCall)
    (h : ∀ e ∈ pre, (!e.isCall) = true) :
    beforeFirstCall (pre ++ Event.call c :: t) = pre := by
  unfold beforeFirstCall
  rw [List.takeWhile_append_of_pos h]
  simp [Event.isCall]

theorem beforeFirstCall_self (pre : List Event) (h : ∀ e ∈ pre, (!e.isCall) = true) :
    beforeFirstCall pre = pre := by
  unfold beforeFirstCall
  exact List.takeWhile_eq_self_iff.mpr h

/-- The steps kept by `takeWhile` on `x ++ c :: y`, when `c` fails the test, are in `x`. -/
theorem mem_takeWhile_append_stop (p : Event → Bool) (x y : List Event) (c : Event)
    (hc : p c = false) : ∀ e ∈ (x ++ c :: y).takeWhile p, e ∈ x := by
  induction x with
  | nil =>
    intro e he
    simp [List.takeWhile_cons, hc] at he
  | cons a rest ih =>
    intro e he
    rw [List.cons_append, List.takeWhile_cons] at he
    split at he
    · rcases List.mem_cons.mp he with h | h
      · exact h ▸ List.mem_cons_self _ _
      · exact List.mem_cons_of_mem _ (ih e h)
    · cases he

/-- What follows the last entry marker of `pre ++ (call :: t) ++ post`, for `post` without
markers: steps of `t`, then `post`. -/
theorem afterLastCall_append (pre t post : List Event) (c : LaunchCall)
    (h : ∀ e ∈ post, (!e.isCall) = true) :
    ∃ w, (∀ e ∈ w, e ∈ t) ∧ afterLastCall (pre ++ Event.call c :: t ++ post) = w ++ post := by
  unfold afterLastCall
  have hrev : (pre ++ Event.call c :: t ++ post).reverse =
      post.reverse ++ (t.reverse ++ Event.call c :: pre.reverse) := by
    simp
  rw [hrev, List.takeWhile_append_of_pos (fun e he => h e (List.mem_reverse.mp he))]
  refine ⟨((t.reverse ++ Event.call c :: pre.reverse).takeWhile (fun e => !e.isCall)).reverse,
    ?_, by simp⟩
  intro e he
  have := mem_takeWhile_append_stop (fun e => !e.isCall) t.reverse pre.reverse (Event.call c)
    rfl e (List.mem_reverse.mp he)
  exact List.mem_reverse.mp this

theorem finishes_preSync_of_clear (env : Env) (K : Consts) (l : List hipFunctionLaunchParams)
    (flags : Nat) (h : flags &&& K.hipCooperativeLaunchMultiDeviceNoPreSync = 0) :
    finishes (preSync env K l flags) =
      l.map (fun launch => (env.getStream launch.hStream).queue) := by
  unfold preSync
  rw [if_pos h, finishes_finishAll]

theorem finishes_postSync_of_clear (env : Env) (K : Consts) (l : List hipFunctionLaunchParams)
    (flags : Nat) (h : flags &&& K.hipCooperativeLaunchMultiDeviceNoPostSync = 0) :
    finishes (postSync env K l flags) =
      l.map (fun launch => (env.getStream launch.hStream).queue) := by
  unfold postSync
  rw [if_pos h, finishes_finishAll]

/-- A failure returned by `ihipLaunchKernel_validate` comes before the parameter loop. -/
theorem validate_failure_trace (env : Env) (K : Consts) (ext : LaunchExt)
    (f : Option DeviceFunc) (gX gY gZ bX bY bZ sharedMemBytes : Nat)
    (kernelParams extra : Option (Nat → Nat)) (deviceId params : Nat)
    (h : (ihipLaunchKernel_validate env K ext f gX gY gZ bX bY bZ sharedMemBytes kernelParams
      extra deviceId params).status ≠ hipSuccess) :
    (ihipLaunchKernel_validate env K ext f gX gY gZ bX bY bZ sharedMemBytes kernelParams
      extra deviceId params).trace = [] := by
  revert h
  unfold ihipLaunchKernel_validate bindArguments
  dsimp only
  repeat' split
  all_goals simp

/-- Past the admission step the coordinator is the rest of its body. -/
theorem coordinator_of_admitted (env : Env) (K : Consts) (ext : Nat → LaunchExt)
    (l : List hipFunctionLaunchParams) (flags extFlags : Nat)
    (h1 : ¬ (l.length = 0 ∨ l.length > toUnsigned env.numActiveGPUs))
    (h2 : ¬ flags > K.hipCooperativeLaunchMultiDeviceNoPostSync +
      K.hipCooperativeLaunchMultiDeviceNoPreSync) :
    ihipModuleLaunchCooperativeKernelMultiDevice env K ext l flags extFlags =
      afterAdmission env K ext l flags extFlags := by
  unfold ihipModuleLaunchCooperativeKernelMultiDevice afterAdmission
  dsimp only
  rw [if_neg h1, if_neg h2]

/-- A non-negative `int` converts to itself. -/
theorem toUnsigned_of_count (n : Int) (h0 : 0 ≤ n) (h1 : n < 2 ^ 31) :
    (toUnsigned n : Int) = n := by
  unfold toUnsigned
  rw [Int.toNat_of_nonneg (Int.emod_nonneg _ (by norm_num))]
  exact Int.emod_eq_of_lt h0 (by omega)



/-- The outcome of `ihipLaunchKernel_validate` is that of the first of its ten tests that
the input does not pass, in the order of the source, or `hipSuccess` when it passes all. -/
theorem validate_firstFailure (env : Env) (K : Consts) (ext : LaunchExt) (f : Option DeviceFunc)
    (gX gY gZ bX bY bZ sharedMemBytes : Nat) (kernelParams extra : Option (Nat → Nat))
    (deviceId params : Nat) :
    (ihipLaunchKernel_validate env K ext f gX gY gZ bX bY bZ sharedMemBytes kernelParams extra
      deviceId params).status =
      (firstFailure (testsOfValidate env K ext f gX gY gZ bX bY bZ sharedMemBytes kernelParams
        extra deviceId params)).getD hipSuccess := by
  cases f with
  | none => rfl
  | some function =>
    unfold ihipLaunchKernel_validate testsOfValidate
    dsimp only
    by_cases h2 : kernelParams.isSome ∧ extra.isSome
    · simp [firstFailure, checkFunction, checkArgumentSource, h2]
    by_cases h3 : gX = 0 ∨ gY = 0 ∨ gZ = 0 ∨ bX = 0 ∨ bY = 0 ∨ bZ = 0
    · simp only [firstFailure, checkFunction, checkArgumentSource, checkDimensions, if_neg h2,
        if_pos h3]
      rfl
    by_cases h4 : sharedMemBytes > (env.device deviceId).info.localMemSizePerCU_
    · simp only [firstFailure, checkFunction, checkArgumentSource, checkDimensions,
        checkSharedMem, if_neg h2, if_neg h3, if_pos h4]
      rfl
    by_cases h5 : mul32 (mul32 bX bY) bZ > (env.device deviceId).info.maxWorkGroupSize_
    · simp only [firstFailure, checkFunction, checkArgumentSource, checkDimensions,
        checkSharedMem, checkMaxWorkGroupSize, if_neg h2, if_neg h3, if_neg h4, if_pos h5]
      rfl
    simp only [firstFailure, checkFunction, checkArgumentSource, checkDimensions,
        checkSharedMem, checkMaxWorkGroupSize, checkDeviceKernel, checkLaunchBounds,
        if_neg h2, if_neg h3, if_neg h4, if_neg h5]
    cases h6 : function.getDeviceKernel (env.device deviceId).addr with
    | none => rfl
    | some deviceKernel =>
      dsimp only
      by_cases h7 : mul32 (mul32 bX bY) bZ > deviceKernel.workGroupInfoSize_
      · simp [firstFailure, h7]
      · simp only [if_neg h7]
        cases h8 : cooperativeGroupsCheck K ext (env.device deviceId).info gX gY gZ bX bY bZ
            params with
        | some e => simp [firstFailure]
        | none =>
          cases h9 : cooperativeMultiDeviceCheck K (env.device deviceId).info params with
          | some e => simp [firstFailure]
          | none =>
            simp only [firstFailure, Option.isNone_some, Bool.false_eq_true, if_false]
            unfold bindArguments checkFlatBuffer
            cases extra with
            | none => rfl
            | some ex =>
              dsimp only
              split <;> rfl

/-- The arguments of the calls made by the dispatch loop: the `k`-th call is for the `k`-th
entry, with its per-axis global sizes (each within 32 bits), its block dimensions and
shared-memory size, the flags and `extFlags` of the coordinator, grid id `i + k`, the grid
count, and the value of `firstDevice` fixed in the first iteration. -/
theorem dispatchLoop_call_args (env : Env) (K : Consts) (ext : Nat → LaunchExt)
    (flags extFlags numDevices allGridSize : Nat) :
    ∀ (es : List hipFunctionLaunchParams) (i prev fd : Nat) (res : hipError_t) (k : Nat)
      (c : LaunchCall),
      (calls (dispatchLoop env K ext flags extFlags numDevices allGridSize es i prev fd
        res).2)[k]? = some c →
      ∃ e, es[k]? = some e ∧
        c.globalWorkSize = (mul64 e.gridDimX e.blockDimX, mul64 e.gridDimY e.blockDimY,
          mul64 e.gridDimZ e.blockDimZ) ∧
        mul64 e.gridDimX e.blockDimX ≤ UINT32_MAX ∧ mul64 e.gridDimY e.blockDimY ≤ UINT32_MAX ∧
        mul64 e.gridDimZ e.blockDimZ ≤ UINT32_MAX ∧
        c.blockDim = (e.blockDimX, e.blockDimY, e.blockDimZ) ∧
        c.sharedMemBytes = e.sharedMemBytes ∧ c.flags = flags ∧ c.params = extFlags ∧
        c.gridId = i + k ∧ c.numGrids = numDevices ∧
        c.firstDevice = firstDeviceAfter env es i fd := by
  intro es
  induction es with
  | nil =>
    intro i prev fd res k c h
    simp [dispatchLoop, calls] at h
  | cons e rest ih =>
    intro i prev fd res k c h
    unfold dispatchLoop at h
    dsimp only at h
    have hfd : firstDeviceAfter env (e :: rest) i fd =
        (if i = 0 then findFirstDevice env (env.getStream e.hStream) fd else fd) := rfl
    rw [hfd]
    generalize (if i = 0 then findFirstDevice env (env.getStream e.hStream) fd else fd) = fd1
      at h ⊢
    split at h
    · simp [calls] at h
    · rename_i hfit
      have hfit3 : mul64 e.gridDimX e.blockDimX ≤ UINT32_MAX ∧
          mul64 e.gridDimY e.blockDimY ≤ UINT32_MAX ∧
          mul64 e.gridDimZ e.blockDimZ ≤ UINT32_MAX := by
        refine ⟨?_, ?_, ?_⟩ <;> (apply Nat.le_of_not_gt; intro hgt; apply hfit; simp [hgt])
      obtain ⟨tl, htl, htrace⟩ := launch_trace env K (ext i) e.function
        (mul64 e.gridDimX e.blockDimX) (mul64 e.gridDimY e.blockDimY)
        (mul64 e.gridDimZ e.blockDimZ) e.blockDimX e.blockDimY e.blockDimZ e.sharedMemBytes
        e.hStream e.kernelParams none none none flags extFlags i numDevices prev allGridSize
        fd1
      split at h
      · rw [htrace, calls_cons_call, calls_of_quiet htl] at h
        cases k with
        | zero =>
          simp only [List.getElem?_cons_zero, Option.some.injEq] at h
          subst h
          exact ⟨e, List.getElem?_cons_zero, rfl, hfit3.1, hfit3.2.1, hfit3.2.2, rfl, rfl, rfl,
            rfl, rfl, rfl, rfl⟩
        | succ k => simp at h
      · split at h
        · rw [htrace, calls_cons_call, calls_of_quiet htl] at h
          cases k with
          | zero =>
            simp only [List.getElem?_cons_zero, Option.some.injEq] at h
            subst h
            exact ⟨e, List.getElem?_cons_zero, rfl, hfit3.1, hfit3.2.1, hfit3.2.2, rfl, rfl, rfl,
              rfl, rfl, rfl, rfl⟩
          | succ k => simp at h
        · dsimp only at h
          rw [htrace, calls_append, calls_cons_call, calls_of_quiet htl] at h
          cases k with
          | zero =>
            simp only [List.cons_append, List.getElem?_cons_zero, Option.some.injEq] at h
            subst h
            exact ⟨e, List.getElem?_cons_zero, rfl, hfit3.1, hfit3.2.1, hfit3.2.2, rfl, rfl, rfl,
              rfl, rfl, rfl, rfl⟩
          | succ k =>
            simp only [List.cons_append, List.nil_append, List.getElem?_cons_succ] at h
            obtain ⟨e', he', h1, h2, h3, h4, h5, h6, h7, h8, h9, h10, h11⟩ := ih _ _ _ _ k c h
            refine ⟨e', by simpa using he', h1, h2, h3, h4, h5, h6, h7, h8, by omega, h10, ?_⟩
            rw [h11]
            cases rest with
            | nil => rfl
            | cons r rs => simp [firstDeviceAfter]

theorem commands_append (s t : List Event) : commands (s ++ t) = commands s ++ commands t := by
  simp [commands, List.filterMap_append]

theorem commands_setParameters (kernel : Nat) (kernelParams : Option (Nat → Nat))
    (kernargs : Nat) (sig : List KernelParameterDescriptor) (i : Nat) :
    commands (setParameters kernel kernelParams kernargs i sig) = [] := by
  induction sig generalizing i with
  | nil => rfl
  | cons desc rest ih =>
    cases kernelParams <;> simp [setParameters, commands] <;> simpa [commands] using ih (i + 1)

theorem commands_validate (env : Env) (K : Consts) (ext : LaunchExt) (f : Option DeviceFunc)
    (gX gY gZ bX bY bZ sharedMemBytes : Nat) (kernelParams extra : Option (Nat → Nat))
    (deviceId params : Nat) :
    commands (ihipLaunchKernel_validate env K ext f gX gY gZ bX bY bZ sharedMemBytes kernelParams
      extra deviceId params).trace = [] := by
  unfold ihipLaunchKernel_validate
  dsimp only
  repeat' split
  all_goals first
    | rfl
    | (unfold bindArguments
       repeat' split
       all_goals first | rfl | exact commands_setParameters _ _ _ _ _)

theorem commands_enqueueCommand (K : Consts) (ext : LaunchExt) (command : NDRangeKernelCommand)
    (stream : Stream) (startEvent stopEvent : Option HipEvent) :
    commands (enqueueCommand K ext command stream startEvent stopEvent).trace = [] := by
  unfold enqueueCommand
  dsimp only
  cases startEvent <;> cases stopEvent <;> (repeat' split) <;> simp [commands]

/-- The clamped block size is the smaller of the block size and the global size. -/
theorem clampBlock_eq_min (g b : Nat) : clampBlock g b = min b g := by
  unfold clampBlock
  split <;> omega

/-- A launch constructs at most one command, with offset zero, the caller's global sizes and
the clamped block sizes. -/
theorem commands_launch (env : Env) (K : Consts) (ext : LaunchExt) (f : Option DeviceFunc)
    (gX gY gZ bX bY bZ sharedMemBytes : Nat) (hStream : Option Stream)
    (kernelParams extra : Option (Nat → Nat)) (startEvent stopEvent : Option HipEvent)
    (flags params gridId numGrids prevGridSum allGridSum firstDevice : Nat) :
    ∀ cmd ∈ commands (ihipModuleLaunchKernel env K ext f gX gY gZ bX bY bZ sharedMemBytes
        hStream kernelParams extra startEvent stopEvent flags params gridId numGrids
        prevGridSum allGridSum firstDevice).trace,
      cmd.globalWorkOffset = (0, 0, 0) ∧ cmd.globalWorkSize = (gX, gY, gZ) ∧
      cmd.localWorkSize = (clampBlock gX bX, clampBlock gY bY, clampBlock gZ bZ) := by
  intro cmd hcmd
  unfold ihipModuleLaunchKernel at hcmd
  dsimp only at hcmd
  split at hcmd
  · simp [commands] at hcmd
  · cases f with
    | none => simp [commands] at hcmd
    | some function =>
      have hv := commands_validate env K ext (some function) gX gY gZ bX bY bZ sharedMemBytes
        kernelParams extra (env.getStream hStream).deviceId params
      dsimp only at hcmd
      have hcons : ∀ (c : LaunchCall) (t : List Event), commands (Event.call c :: t) =
          commands t := fun _ _ => rfl
      split at hcmd
      · rw [hcons, hv] at hcmd
        cases hcmd
      · split at hcmd
        · rw [hcons, hv] at hcmd
          cases hcmd
        · split at hcmd
          · rename_i h
            rw [List.cons_append, List.cons_append, hcons, commands_append, commands_append, hv,
              commands_enqueueCommand, List.nil_append, List.append_nil] at hcmd
            unfold ihipLaunchKernelCommand at h
            dsimp only at h
            split at h
            · cases h
            · split at h
              · cases h
              · simp only [Prod.mk.injEq, Option.some.injEq] at h
                obtain ⟨_, _, h3⟩ := h
                rw [← h3] at hcmd
                simp [commands] at hcmd
                subst hcmd
                exact ⟨rfl, rfl, rfl⟩
          · rename_i h
            rw [List.cons_append, hcons, commands_append, hv, List.nil_append] at hcmd
            unfold ihipLaunchKernelCommand at h
            dsimp only at h
            split at h
            · simp only [Prod.mk.injEq] at h
              obtain ⟨_, _, h3⟩ := h
              rw [← h3] at hcmd
              cases hcmd
            · split at h
              · simp only [Prod.mk.injEq] at h
                obtain ⟨_, _, h3⟩ := h
                rw [← h3] at hcmd
                simp [commands] at hcmd
                subst hcmd
                exact ⟨rfl, rfl, rfl⟩
              · simp at h

/-- A launch accepted by `ihipLaunchKernel_validate` has six non-zero dimensions. -/
theorem validate_success_dims (env : Env) (K : Consts) (ext : LaunchExt) (f : Option DeviceFunc)
    (gX gY gZ bX bY bZ sharedMemBytes : Nat) (kernelParams extra : Option (Nat → Nat))
    (deviceId params : Nat)
    (h : (ihipLaunchKernel_validate env K ext f gX gY gZ bX bY bZ sharedMemBytes kernelParams
      extra deviceId params).status = hipSuccess) :
    gX ≠ 0 ∧ gY ≠ 0 ∧ gZ ≠ 0 ∧ bX ≠ 0 ∧ bY ≠ 0 ∧ bZ ≠ 0 := by
  unfold ihipLaunchKernel_validate at h
  cases f with
  | none => cases h
  | some function =>
    dsimp only at h
    split at h
    · cases h
    · split at h
      · cases h
      · rename_i hz
        omega

/-- The command of a launch that passed the validation and the uniform-work-group test: what
`ihipModuleLaunchKernel` does from the call of `ihipLaunchKernelCommand` on. -/
theorem launch_after_uniform_test (K : Consts) (ext : LaunchExt) (function : DeviceFunc)
    (gX gY gZ bX bY bZ sharedMemBytes : Nat) (stream : Stream)
    (startEvent stopEvent : Option HipEvent)
    (flags params gridId numGrids prevGridSum allGridSum firstDevice : Nat)
    (entry : Event) (bound : List Event) (hbound : commands bound = [])
    (hentry : commands [entry] = []) :
    ¬ ((match ihipLaunchKernelCommand K ext function gX gY gZ bX bY bZ sharedMemBytes stream
          startEvent stopEvent flags params gridId numGrids prevGridSum allGridSum
          firstDevice with
        | (_, some command, steps) =>
          (⟨(enqueueCommand K ext command stream startEvent stopEvent).status,
            entry :: bound ++ steps ++
              (enqueueCommand K ext command stream startEvent stopEvent).trace⟩ : LaunchResult)
        | (status, none, steps) => ⟨status, entry :: bound ++ steps⟩).status =
          Outcome.returned hipErrorInvalidValue ∧
      commands (match ihipLaunchKernelCommand K ext function gX gY gZ bX bY bZ sharedMemBytes
          stream startEvent stopEvent flags params gridId numGrids prevGridSum allGridSum
          firstDevice with
        | (_, some command, steps) =>
          (⟨(enqueueCommand K ext command stream startEvent stopEvent).status,
            entry :: bound ++ steps ++
              (enqueueCommand K ext command stream startEvent stopEvent).trace⟩ : LaunchResult)
        | (status, none, steps) => ⟨status, entry :: bound ++ steps⟩).trace = []) := by
  unfold ihipLaunchKernelCommand
  dsimp only
  have hcons : ∀ t : List Event, commands (entry :: t) = commands t := by
    intro t
    have := commands_append [entry] t
    rw [hentry] at this
    simpa using this
  have hnew : ∀ (c : NDRangeKernelCommand) (t : List Event),
      commands (Event.newCommand c :: t) = c :: commands t := fun _ _ => rfl
  cases ext.commandAllocated <;> cases ext.captureOk <;>
    simp [hcons, commands_append, hbound, commands_enqueueCommand, hnew]

/-- When the first nine checks pass, `ihipLaunchKernel_validate` comes down to the marker
check and the parameter loop. -/
theorem validate_of_nine_passed (env : Env) (K : Consts) (ext : LaunchExt)
    (function : DeviceFunc) (gX gY gZ bX bY bZ sharedMemBytes : Nat)
    (kernelParams extra : Option (Nat → Nat)) (deviceId params : Nat)
    (h : ∀ j, j < 9 → (testsOfValidate env K ext (some function) gX gY gZ bX bY bZ
      sharedMemBytes kernelParams extra deviceId params)[j]? = some none) :
    ihipLaunchKernel_validate env K ext (some function) gX gY gZ bX bY bZ sharedMemBytes
      kernelParams extra deviceId params = bindArguments K function kernelParams extra := by
  have h2 := h 1 (by norm_num)
  have h3 := h 2 (by norm_num)
  have h4 := h 3 (by norm_num)
  have h5 := h 4 (by norm_num)
  have h6 := h 5 (by norm_num)
  have h7 := h 6 (by norm_num)
  have h8 := h 7 (by norm_num)
  have h9 := h 8 (by norm_num)
  simp only [testsOfValidate, List.getElem?_cons_succ, List.getElem?_cons_zero,
    Option.some.injEq] at h2 h3 h4 h5 h6 h7 h8 h9
  unfold ihipLaunchKernel_validate
  dsimp only
  by_cases c2 : kernelParams.isSome ∧ extra.isSome
  · simp [checkArgumentSource, c2] at h2
  rw [if_neg c2]
  by_cases c3 : gX = 0 ∨ gY = 0 ∨ gZ = 0 ∨ bX = 0 ∨ bY = 0 ∨ bZ = 0
  · simp [checkDimensions, c3] at h3
  rw [if_neg c3]
  by_cases c4 : sharedMemBytes > (env.device deviceId).info.localMemSizePerCU_
  · simp [checkSharedMem, c4] at h4
  rw [if_neg c4]
  by_cases c5 : mul32 (mul32 bX bY) bZ > (env.device deviceId).info.maxWorkGroupSize_
  · simp [checkMaxWorkGroupSize, c5] at h5
  rw [if_neg c5]
  cases c6 : function.getDeviceKernel (env.device deviceId).addr with
  | none => simp [checkDeviceKernel, c6] at h6
  | some deviceKernel =>
    dsimp only
    by_cases c7 : mul32 (mul32 bX bY) bZ > deviceKernel.workGroupInfoSize_
    · simp [checkLaunchBounds, c6, c7] at h7
    rw [if_neg c7, h8]
    dsimp only
    rw [h9]

/-- The parameter loop in flat-buffer mode writes, for the descriptor at each index, `size_`
bytes from address `kernargs + offset_`. -/
theorem setParameters_flat (kernel kernargs : Nat) :
    ∀ (sig : List KernelParameterDescriptor) (i : Nat),
      setParameters kernel none kernargs i sig =
        (sig.enumFrom i).map (fun p =>
          Event.parametersSet kernel p.1 p.2.size_ (kernargs + p.2.offset_) p.2.isPointer) := by
  intro sig
  induction sig with
  | nil =>
    intro i
    rfl
  | cons desc rest ih =>
    intro i
    simp only [setParameters, List.enumFrom_cons, List.map_cons]
    rw [ih (i + 1)]

/-- The `params` of a command constructed by `ihipModuleLaunchKernel`: the caller's `params`,
with the bit `AnyOrderLaunch` added when `flags` has a bit of `hipExtAnyOrderLaunch`. -/
theorem commands_launch_params (env : Env) (K : Consts) (ext : LaunchExt)
    (f : Option DeviceFunc) (gX gY gZ bX bY bZ sharedMemBytes : Nat) (hStream : Option Stream)
    (kernelParams extra : Option (Nat → Nat)) (startEvent stopEvent : Option HipEvent)
    (flags params gridId numGrids prevGridSum allGridSum firstDevice : Nat) :
    ∀ cmd ∈ commands (ihipModuleLaunchKernel env K ext f gX gY gZ bX bY bZ sharedMemBytes
        hStream kernelParams extra startEvent stopEvent flags params gridId numGrids
        prevGridSum allGridSum firstDevice).trace,
      cmd.params =
        if flags &&& K.hipExtAnyOrderLaunch ≠ 0 then params ||| K.AnyOrderLaunch else params := by
  intro cmd hcmd
  unfold ihipModuleLaunchKernel at hcmd
  dsimp only at hcmd
  split at hcmd
  · simp [commands] at hcmd
  · cases f with
    | none => simp [commands] at hcmd
    | some function =>
      have hv := commands_validate env K ext (some function) gX gY gZ bX bY bZ sharedMemBytes
        kernelParams extra (env.getStream hStream).deviceId params
      dsimp only at hcmd
      have hcons : ∀ (c : LaunchCall) (t : List Event), commands (Event.call c :: t) =
          commands t := fun _ _ => rfl
      split at hcmd
      · rw [hcons, hv] at hcmd
        cases hcmd
      · split at hcmd
        · rw [hcons, hv] at hcmd
          cases hcmd
        · split at hcmd
          · rename_i h
            rw [List.cons_append, List.cons_append, hcons, commands_append, commands_append, hv,
              commands_enqueueCommand, List.nil_append, List.append_nil] at hcmd
            unfold ihipLaunchKernelCommand at h
            dsimp only at h
            split at h
            · cases h
            · split at h
              · cases h
              · simp only [Prod.mk.injEq, Option.some.injEq] at h
                obtain ⟨_, _, h3⟩ := h
                rw [← h3] at hcmd
                simp [commands] at hcmd
                subst hcmd
                by_cases hb : flags &&& K.hipExtAnyOrderLaunch = 0 <;> simp [hb]
          · rename_i h
            rw [List.cons_append, hcons, commands_append, hv, List.nil_append] at hcmd
            unfold ihipLaunchKernelCommand at h
            dsimp only at h
            split at h
            · simp only [Prod.mk.injEq] at h
              obtain ⟨_, _, h3⟩ := h
              rw [← h3] at hcmd
              cases hcmd
            · split at h
              · simp only [Prod.mk.injEq] at h
                obtain ⟨_, _, h3⟩ := h
                rw [← h3] at hcmd
                simp [commands] at hcmd
                subst hcmd
                by_cases hb : flags &&& K.hipExtAnyOrderLaunch = 0 <;> simp [hb]
              · simp at h

/-- Every command constructed during the dispatch loop carries `extFlags`, with the bit
`AnyOrderLaunch` added when the coordinator's `flags` has a bit of `hipExtAnyOrderLaunch`. -/
theorem commands_dispatchLoop_params (env : Env) (K : Consts) (ext : Nat → LaunchExt)
    (flags extFlags numDevices allGridSize : Nat) :
    ∀ (es : List hipFunctionLaunchParams) (i prev fd : Nat) (res : hipError_t),
      ∀ cmd ∈ commands
          (dispatchLoop env K ext flags extFlags numDevices allGridSize es i prev fd res).2,
        cmd.params =
          if flags &&& K.hipExtAnyOrderLaunch ≠ 0 then extFlags ||| K.AnyOrderLaunch
          else extFlags := by
  intro es
  induction es with
  | nil =>
    intro i prev fd res cmd hcmd
    simp [dispatchLoop, commands] at hcmd
  | cons a rest ih =>
    intro i prev fd res cmd hcmd
    unfold dispatchLoop at hcmd
    dsimp only at hcmd
    generalize (if i = 0 then findFirstDevice env (env.getStream a.hStream) fd else fd) = fd1
      at hcmd
    have hl := commands_launch_params env K (ext i) a.function
      (mul64 a.gridDimX a.blockDimX) (mul64 a.gridDimY a.blockDimY)
      (mul64 a.gridDimZ a.blockDimZ) a.blockDimX a.blockDimY a.blockDimZ a.sharedMemBytes
      a.hStream a.kernelParams none none none flags extFlags i numDevices prev allGridSize fd1
    split at hcmd
    · simp [commands] at hcmd
    · split at hcmd
      · exact hl cmd hcmd
      · split at hcmd
        · exact hl cmd hcmd
        · rw [commands_append] at hcmd
          rcases List.mem_append.mp hcmd with h | h
          · exact hl cmd h
          · exact ih _ _ _ _ cmd h

/-- The barrier loops construct no command. -/
theorem commands_finishAll (env : Env) (l : List hipFunctionLaunchParams) :
    commands (finishAll env l) = [] := by
  simp [finishAll, commands]

/-- Every command constructed during a call of the coordinator carries `extFlags`, with the
bit `AnyOrderLaunch` added when `flags` has a bit of `hipExtAnyOrderLaunch`. -/
theorem commands_coordinator_params (env : Env) (K : Consts) (ext : Nat → LaunchExt)
    (l : List hipFunctionLaunchParams) (flags extFlags : Nat) :
    ∀ cmd ∈ commands
        (ihipModuleLaunchCooperativeKernelMultiDevice env K ext l flags extFlags).trace,
      cmd.params =
        if flags &&& K.hipExtAnyOrderLaunch ≠ 0 then extFlags ||| K.AnyOrderLaunch
        else extFlags := by
  intro cmd hcmd
  have hpre : commands (preSync env K l flags) = [] := by
    unfold preSync
    split
    · exact commands_finishAll env l
    · rfl
  have hpost : commands (postSync env K l flags) = [] := by
    unfold postSync
    split
    · exact commands_finishAll env l
    · rfl
  rcases coordinator_trace env K ext l flags extFlags with h0 | ⟨allGridSize, tail, ht, htail, _, _⟩
  · rw [h0] at hcmd
    cases hcmd
  · have htl : commands tail = [] := by
      rcases htail with h | h
      · rw [h]
        rfl
      · rw [h]
        exact hpost
    rw [ht, commands_append, commands_append, hpre, htl, List.nil_append, List.append_nil]
      at hcmd
    exact commands_dispatchLoop_params env K ext flags extFlags l.length allGridSize l 0 0 0
      env.deviceGetCountResult cmd hcmd

/-- The calls in the trace of the coordinator carry its `flags` and `extFlags`. -/
theorem coordinator_call_flags (env : Env) (K : Consts) (ext : Nat → LaunchExt)
    (l : List hipFunctionLaunchParams) (flags extFlags : Nat) :
    ∀ c ∈ calls (ihipModuleLaunchCooperativeKernelMultiDevice env K ext l flags extFlags).trace,
      c.flags = flags ∧ c.params = extFlags := by
  intro c hc
  rcases coordinator_calls env K ext l flags extFlags with h0 | ⟨allGridSize, h1⟩
  · rw [h0] at hc
    cases hc
  · rw [h1] at hc
    obtain ⟨k, hk⟩ := List.getElem?_of_mem hc
    obtain ⟨e, _, _, _, _, _, _, _, hf, hp, _⟩ := dispatchLoop_call_args env K ext
      flags extFlags l.length allGridSize l 0 0 0 env.deviceGetCountResult k c hk
    exact ⟨hf, hp⟩

/-- Bitwise: a bit that has been added by `|` is set. -/
theorem or_and_self_right (a b : Nat) : (a ||| b) &&& b = b := by
  apply Nat.eq_of_testBit_eq
  intro i
  rw [Nat.testBit_and, Nat.testBit_or]
  cases a.testBit i <;> cases b.testBit i <;> rfl

/-- The first loop returns `hipErrorInvalidDevice` when the entry at position `j` is on a
device already seen (among `pre` or among the entries before it) and the entries up to
position `j` have a non-zero 32-bit block product and a non-null stream; later entries are
not read. -/
theorem geometryPass_duplicate_at (env : Env) :
    ∀ (es : List hipFunctionLaunchParams) (pre : List Nat) (allGridSize j : Nat)
      (ej : hipFunctionLaunchParams),
      (∀ k e, k ≤ j → es[k]? = some e →
        mul32 (mul32 e.blockDimX e.blockDimY) e.blockDimZ ≠ 0 ∧ e.hStream ≠ none) →
      es[j]? = some ej →
      entryDevice env ej ∈ pre ++ (es.take j).map (entryDevice env) →
      geometryPass es pre.length allGridSize
        (pre.map some ++ List.replicate es.length none) = .error hipErrorInvalidDevice := by
  intro es
  induction es with
  | nil =>
    intro pre _ j ej _ hj _
    simp at hj
  | cons e rest ih =>
    intro pre allGridSize j ej hvalid hj hmemj
    obtain ⟨hb, hs⟩ := hvalid 0 e (Nat.zero_le _) List.getElem?_cons_zero
    obtain ⟨s, hs⟩ := Option.ne_none_iff_exists'.mp hs
    unfold geometryPass
    dsimp only
    rw [if_neg hb]
    simp only [hs]
    have hdev : entryDevice env e = s.device.addr := by simp [entryDevice, Env.getStream, hs]
    by_cases hmem : s.device.addr ∈ pre
    · rw [if_pos ((mem_mgpu pre _ _).mpr hmem)]
    · rw [if_neg (fun h => hmem ((mem_mgpu pre _ _).mp h))]
      rw [List.length_cons, set_mgpu]
      have hlen : pre.length + 1 = (pre ++ [s.device.addr]).length := by simp
      rw [hlen]
      cases j with
      | zero =>
        simp only [List.getElem?_cons_zero, Option.some.injEq] at hj
        subst hj
        simp only [List.take_zero, List.map_nil, List.append_nil] at hmemj
        rw [hdev] at hmemj
        exact absurd hmemj hmem
      | succ j =>
        apply ih (pre ++ [s.device.addr]) _ j ej
        · intro k x hk hx
          exact hvalid (k + 1) x (by omega) (by simpa using hx)
        · simpa using hj
        · simpa [hdev, List.append_assoc] using hmemj

/-- When the first loop runs to its end, every entry has a non-null stream and the devices
seen before, followed by those of the entries, are distinct. -/
theorem geometryPass_ok_distinct (env : Env) :
    ∀ (es : List hipFunctionLaunchParams) (pre : List Nat) (allGridSize total : Nat),
      pre.Nodup →
      geometryPass es pre.length allGridSize
        (pre.map some ++ List.replicate es.length none) = .ok total →
      (∀ e ∈ es, e.hStream ≠ none) ∧ (pre ++ es.map (entryDevice env)).Nodup := by
  intro es
  induction es with
  | nil =>
    intro pre _ _ hpre _
    simpa using hpre
  | cons e rest ih =>
    intro pre allGridSize total hpre hok
    unfold geometryPass at hok
    dsimp only at hok
    split at hok
    · cases hok
    · cases hs : e.hStream with
      | none =>
        rw [hs] at hok
        cases hok
      | some s =>
        rw [hs] at hok
        dsimp only at hok
        have hdev : entryDevice env e = s.device.addr := by
          simp [entryDevice, Env.getStream, hs]
        split at hok
        · cases hok
        · rename_i hmem
          have hnot : s.device.addr ∉ pre := fun h => hmem ((mem_mgpu pre _ _).mpr h)
          rw [List.length_cons, set_mgpu] at hok
          have hlen : pre.length + 1 = (pre ++ [s.device.addr]).length := by simp
          rw [hlen] at hok
          have hpre1 : (pre ++ [s.device.addr]).Nodup :=
            List.nodup_append.mpr ⟨hpre, List.nodup_singleton _, by
              intro a ha hb
              simp at hb
              exact hnot (hb ▸ ha)⟩
          obtain ⟨h1, h2⟩ := ih _ _ _ hpre1 hok
          refine ⟨?_, ?_⟩
          · intro x hx
            rcases List.mem_cons.mp hx with h | h
            · rw [h, hs]
              simp
            · exact h1 x h
          · simpa [hdev, List.append_assoc] using h2
/-- The errors of the first loop. -/
theorem geometryPass_error :
    ∀ (es : List hipFunctionLaunchParams) (i allGridSize : Nat) (mgpu_list : List (Option Nat))
      (e : hipError_t), geometryPass es i allGridSize mgpu_list = .error e →
      e = hipErrorInvalidConfiguration ∨ e = hipErrorInvalidResourceHandle ∨
        e = hipErrorInvalidDevice := by
  intro es
  induction es with
  | nil =>
    intro i a m e h
    cases h
  | cons x rest ih =>
    intro i a m e h
    unfold geometryPass at h
    dsimp only at h
    split at h
    · cases h
      exact Or.inl rfl
    · split at h
      · split at h
        · cases h
          exact Or.inr (Or.inr rfl)
        · exact ih _ _ _ _ h
      · cases h
        exact Or.inr (Or.inl rfl)

/-! ## Single-device launch: validation order and argument sources -/

/-- C1 (code defect): block dimensions (65536, 65536, 1) have the exact product `2 ^ 32`, far
above the device limit of 1024 threads, yet the 32-bit product computed by
`ihipLaunchKernel_validate` wraps to 0, the work-group-size check lets the launch through and
`ihipModuleLaunchKernel` returns `hipSuccess` instead of `hipErrorInvalidValue`. -/
theorem C1_wrapped_block_product_passes_limit :
    (twoGpus.device (streamOn 1 0).deviceId).info.maxWorkGroupSize_ = 1024 ∧
    1024 < 65536 * 65536 * 1 ∧
    mul32 (mul32 65536 65536) 1 = 0 ∧
    (ihipModuleLaunchKernel twoGpus headerConsts allOk (some (kernelWith 1024 false))
      65536 65536 1 65536 65536 1 0 (some (streamOn 1 0)) somePointers none none none
      0 0 0 0 0 0 0).status = hipSuccess := by
  decide

/-- C2 (counterexample): the kernel's launch-bound ceiling is 256 and the block is
(32, 32, 2), so the ceiling is below the block product 2048; the device limit of 1024 is
checked first and the launch returns `hipErrorInvalidValue`, not `hipErrorLaunchFailure`. -/
theorem C2_counterexample :
    (∃ deviceKernel, (kernelWith 256 false).getDeviceKernel
        (twoGpus.device (streamOn 1 0).deviceId).addr = some deviceKernel ∧
      deviceKernel.workGroupInfoSize_ < 32 * 32 * 2) ∧
    (ihipModuleLaunchKernel twoGpus headerConsts allOk (some (kernelWith 256 false))
      64 64 2 32 32 2 0 (some (streamOn 1 0)) somePointers none none none
      0 0 0 0 0 0 0).status = hipErrorInvalidValue :=
  ⟨⟨_, rfl, by decide⟩, by decide⟩

/-- C2 (amended): when the checks that precede the launch-bound test pass (the prelude
succeeded, at most one argument source, six non-zero dimensions, shared memory within the
device budget, a block product that fits in 32 bits and is within the device limit, a kernel
resolved on the device) and the kernel's launch-bound ceiling is smaller than the block
product, `ihipModuleLaunchKernel` returns `hipErrorLaunchFailure` and binds no parameter. -/
theorem C2_launch_bound_gives_LaunchFailure (env : Env) (K : Consts) (ext : LaunchExt)
    (function : DeviceFunc) (deviceKernel : DeviceKernel)
    (gX gY gZ bX bY bZ sharedMemBytes : Nat) (hStream : Option Stream)
    (kernelParams extra : Option (Nat → Nat)) (startEvent stopEvent : Option HipEvent)
    (flags params gridId numGrids prevGridSum allGridSum firstDevice : Nat)
    (hInit : ext.initStatManagedVarDevicePtr = hipSuccess)
    (hSource : ¬ (kernelParams.isSome ∧ extra.isSome))
    (hDims : gX ≠ 0 ∧ gY ≠ 0 ∧ gZ ≠ 0 ∧ bX ≠ 0 ∧ bY ≠ 0 ∧ bZ ≠ 0)
    (hShared : sharedMemBytes ≤
      (env.device (env.getStream hStream).deviceId).info.localMemSizePerCU_)
    (hFit : bX * bY * bZ < 2 ^ 32)
    (hMax : bX * bY * bZ ≤ (env.device (env.getStream hStream).deviceId).info.maxWorkGroupSize_)
    (hKernel : function.getDeviceKernel (env.device (env.getStream hStream).deviceId).addr =
      some deviceKernel)
    (hBound : deviceKernel.workGroupInfoSize_ < bX * bY * bZ) :
    (ihipModuleLaunchKernel env K ext (some function) gX gY gZ bX bY bZ sharedMemBytes hStream
      kernelParams extra startEvent stopEvent flags params gridId numGrids prevGridSum
      allGridSum firstDevice).status = hipErrorLaunchFailure ∧
    effects (ihipModuleLaunchKernel env K ext (some function) gX gY gZ bX bY bZ sharedMemBytes
      hStream kernelParams extra startEvent stopEvent flags params gridId numGrids prevGridSum
      allGridSum firstDevice).trace = [] := by
  obtain ⟨h1, h2, h3, h4, h5, h6⟩ := hDims
  have hprod : mul32 (mul32 bX bY) bZ = bX * bY * bZ := by
    rw [mul32_mul32, Nat.mod_eq_of_lt hFit]
  have hv : ihipLaunchKernel_validate env K ext (some function) gX gY gZ bX bY bZ
      sharedMemBytes kernelParams extra (env.getStream hStream).deviceId params =
      ⟨hipErrorLaunchFailure, []⟩ := by
    simp only [ihipLaunchKernel_validate, hprod, hKernel]
    rw [if_neg hSource, if_neg (by simp [h1, h2, h3, h4, h5, h6]), if_neg (not_lt.mpr hShared),
      if_neg (not_lt.mpr hMax), if_pos hBound]
  simp [ihipModuleLaunchKernel, hInit, hv, effects, Event.isCall]

/-- Witness for C2 (amended): a (16, 16, 2) block, product 512, on a kernel whose ceiling
is 256 and a device whose limit is 1024. -/
theorem C2_launch_bound_gives_LaunchFailure_witness :
    (ihipModuleLaunchKernel twoGpus headerConsts allOk (some (kernelWith 256 false))
      64 64 2 16 16 2 0 (some (streamOn 1 0)) somePointers none none none
      0 0 0 0 0 0 0).status = hipErrorLaunchFailure :=
  (C2_launch_bound_gives_LaunchFailure twoGpus headerConsts allOk (kernelWith 256 false)
    { workGroupInfoSize_ := 256, uniformWorkGroupSize := false }
    64 64 2 16 16 2 0 (some (streamOn 1 0)) somePointers none none none 0 0 0 0 0 0 0
    rfl (by decide) (by decide) (by decide) (by decide) (by decide) rfl (by decide)).1

/-- C3 (counterexample): a launch with a non-null function that supplies both `kernelParams`
and `extra`, on a device for which the prelude `initStatManagedVarDevicePtr` fails with
`hipErrorOutOfMemory`: the launch returns that error, not `hipErrorInvalidValue`. -/
theorem C3_counterexample :
    ihipModuleLaunchKernel twoGpus headerConsts preludeFails (some (kernelWith 1024 false))
      64 1 1 64 1 1 0 (some (streamOn 1 0)) (some (fun _ => 4096)) (some (fun _ => 1)) none none
      0 0 0 0 0 0 0 =
      ⟨hipErrorOutOfMemory, [Event.call ⟨(64, 1, 1), (64, 1, 1), 0, 0, 0, 0, 0, 0, 0, 0⟩]⟩ := by
  decide

/-- C3 (amended): a launch through `ihipModuleLaunchKernel` with a non-null function that
supplies both `kernelParams` and `extra` returns, whatever the geometry, shared-memory size,
device limits and flags are, the error of the prelude `initStatManagedVarDevicePtr` when the
prelude fails and `hipErrorInvalidValue` when it succeeds; in both cases it performs no step
besides being entered: no parameter is written, no command is constructed or enqueued. -/
theorem C3_both_argument_sources_rejected (env : Env) (K : Consts) (ext : LaunchExt)
    (function : DeviceFunc) (gX gY gZ bX bY bZ sharedMemBytes : Nat) (hStream : Option Stream)
    (kernelParams extra : Nat → Nat) (startEvent stopEvent : Option HipEvent)
    (flags params gridId numGrids prevGridSum allGridSum firstDevice : Nat) :
    (ext.initStatManagedVarDevicePtr = hipSuccess →
      (ihipModuleLaunchKernel env K ext (some function) gX gY gZ bX bY bZ sharedMemBytes
        hStream (some kernelParams) (some extra) startEvent stopEvent flags params gridId
        numGrids prevGridSum allGridSum firstDevice).status = hipErrorInvalidValue) ∧
    (ext.initStatManagedVarDevicePtr ≠ hipSuccess →
      (ihipModuleLaunchKernel env K ext (some function) gX gY gZ bX bY bZ sharedMemBytes
        hStream (some kernelParams) (some extra) startEvent stopEvent flags params gridId
        numGrids prevGridSum allGridSum firstDevice).status =
        ext.initStatManagedVarDevicePtr) ∧
    effects (ihipModuleLaunchKernel env K ext (some function) gX gY gZ bX bY bZ sharedMemBytes
      hStream (some kernelParams) (some extra) startEvent stopEvent flags params gridId
      numGrids prevGridSum allGridSum firstDevice).trace = [] := by
  by_cases hInit : ext.initStatManagedVarDevicePtr = hipSuccess
  · simp [ihipModuleLaunchKernel, ihipLaunchKernel_validate, hInit, effects, Event.isCall]
  · simp [ihipModuleLaunchKernel, hInit, effects, Event.isCall]

/-- Witness for C3 (amended): a well-formed launch that supplies both argument sources, the
prelude succeeding. -/
theorem C3_both_argument_sources_rejected_witness :
    (ihipModuleLaunchKernel twoGpus headerConsts allOk (some (kernelWith 1024 false))
      64 1 1 64 1 1 0 (some (streamOn 1 0)) (some (fun _ => 4096)) (some (fun _ => 1)) none none
      0 0 0 0 0 0 0).status = hipErrorInvalidValue :=
  (C3_both_argument_sources_rejected twoGpus headerConsts allOk (kernelWith 1024 false)
    64 1 1 64 1 1 0 (some (streamOn 1 0)) (fun _ => 4096) (fun _ => 1) none none
    0 0 0 0 0 0 0).1 rfl

/-- C4 (code defect): the kernel has one parameter and neither `kernelParams` nor `extra`
is supplied; with the assertions compiled out `ihipLaunchKernel_validate` reaches the
parameter loop, calls `parameters().set` with the source address `nullptr + offset_` and
returns `hipSuccess`, and the launch goes on to enqueue the command and return `hipSuccess`. -/
theorem C4_missing_argument_source_not_rejected :
    (kernelWith 1024 false).signature.length = 1 ∧
    ihipLaunchKernel_validate twoGpus headerConsts allOk (some (kernelWith 1024 false))
      64 1 1 64 1 1 0 none none 0 0 = ⟨hipSuccess, [Event.parametersSet 7 0 8 0 true]⟩ ∧
    (ihipModuleLaunchKernel twoGpus headerConsts allOk (some (kernelWith 1024 false))
      64 1 1 64 1 1 0 (some (streamOn 1 0)) none none none none
      0 0 0 0 0 0 0).status = hipSuccess := by
  decide

/-! ## Multi-device coordinator -/

/-- C5 (code defect): with two grids of `2 ^ 32` and 64 elements the exact total is
`2 ^ 32 + 64`, and the second grid is given `prevGridSum = 2 ^ 32`; the first loop multiplies
in 32 bits, so the first grid contributes 0 and every dispatch receives `allGridSum = 64`,
which is neither the exact total nor the last `prevGridSum` plus the last count. -/
theorem C5_allGridSum_wraps_at_32_bits :
    (calls (ihipModuleLaunchCooperativeKernelMultiDevice twoGpus headerConsts (fun _ => allOk)
      grids_2p32_64 0 0).trace).map (fun c => (c.gridId, c.prevGridSum, c.allGridSum)) =
      [(0, 0, 64), (1, 4294967296, 64)] ∧
    (grids_2p32_64.map (fun e =>
      e.gridDimX * e.gridDimY * e.gridDimZ * e.blockDimX * e.blockDimY * e.blockDimZ)).sum =
      4294967296 + 64 := by
  decide

/-- C6 (counterexample): the first grid has per-axis global sizes `2 ^ 22`, `2 ^ 21` and
`2 ^ 21`, hence `2 ^ 64` elements; the product is formed in `size_t` and the second grid is
given `prevGridSum = 0`, not `2 ^ 64`. -/
theorem C6_counterexample :
    (calls (ihipModuleLaunchCooperativeKernelMultiDevice twoGpus headerConsts (fun _ => allOk)
      grids_2p64_64 0 0).trace).map (fun c => (c.gridId, c.prevGridSum)) = [(0, 0), (1, 0)] ∧
    ((grids_2p64_64.take 1).map (fun e =>
      e.gridDimX * e.blockDimX * (e.gridDimY * e.blockDimY) *
        (e.gridDimZ * e.blockDimZ))).sum = 2 ^ 64 := by
  decide

/-- C6 (amended): the `i`-th call of `ihipModuleLaunchKernel` made by the coordinator has grid
id `i` and receives as `prevGridSum` the sum of the exact element counts of entries
`0 .. i-1` (each the product of the three per-axis global sizes `gridDim * blockDim`),
reduced modulo `2 ^ 64`. -/
theorem C6_prevGridSum_is_running_sum_mod_2_64 (env : Env) (K : Consts) (ext : Nat → LaunchExt)
    (l : List hipFunctionLaunchParams) (flags extFlags i : Nat) (c : LaunchCall)
    (h : (calls (ihipModuleLaunchCooperativeKernelMultiDevice env K ext l flags
      extFlags).trace)[i]? = some c) :
    c.gridId = i ∧
    c.prevGridSum = ((l.take i).map (fun e =>
      e.gridDimX * e.blockDimX * (e.gridDimY * e.blockDimY) *
        (e.gridDimZ * e.blockDimZ))).sum % 2 ^ 64 := by
  rcases coordinator_calls env K ext l flags extFlags with h0 | ⟨allGridSize, h1⟩
  · rw [h0] at h
    simp at h
  · rw [h1] at h
    have := dispatchLoop_calls env K ext flags extFlags l.length allGridSize l 0 0 0
      env.deviceGetCountResult i c (by norm_num) h
    simpa using And.intro this.1 this.2.2.2

/-- Witness for C6 (amended): with the counts 100, 200 and 50 the third grid (index 2) is
dispatched with `prevGridSum = 300`. -/
theorem C6_prevGridSum_is_running_sum_mod_2_64_witness :
    (calls (ihipModuleLaunchCooperativeKernelMultiDevice threeGpus headerConsts (fun _ => allOk)
      grids_100_200_50 0 0).trace).map (fun c => c.prevGridSum) = [0, 100, 300] ∧
    (300 : Nat) = ((grids_100_200_50.take 2).map (fun e =>
      e.gridDimX * e.blockDimX * (e.gridDimY * e.blockDimY) *
        (e.gridDimZ * e.blockDimZ))).sum % 2 ^ 64 :=
  ⟨by decide,
    (C6_prevGridSum_is_running_sum_mod_2_64 threeGpus headerConsts (fun _ => allOk)
      grids_100_200_50 0 0 2
      { globalWorkSize := (50, 1, 1), blockDim := (1, 1, 1), sharedMemBytes := 0, flags := 0,
        params := 0, gridId := 2, numGrids := 3, prevGridSum := 300, allGridSum := 350,
        firstDevice := 0 } (by decide)).2⟩

/-- C7 (counterexample): lists in which two entries' streams are bound to the same device and
which are not rejected with `hipErrorInvalidDevice`: on a machine with one active device two
entries on that device are rejected by the admission step with `hipErrorInvalidValue`; on a
machine with three active devices a first entry with a zero block dimension gives
`hipErrorInvalidConfiguration` and a first entry with a null stream gives
`hipErrorInvalidResourceHandle`, the two entries on device 1 that follow not being read. -/
theorem C7_counterexample :
    (streamOn 1 0).device = (streamOn 2 0).device ∧
    ihipModuleLaunchCooperativeKernelMultiDevice oneGpu headerConsts (fun _ => allOk)
      grids_same_device 0 0 = ⟨hipErrorInvalidValue, []⟩ ∧
    (streamOn 2 1).device = (streamOn 3 1).device ∧
    ihipModuleLaunchCooperativeKernelMultiDevice threeGpus headerConsts (fun _ => allOk)
      grids_zero_block_then_repeat 0 0 = ⟨hipErrorInvalidConfiguration, []⟩ ∧
    ihipModuleLaunchCooperativeKernelMultiDevice threeGpus headerConsts (fun _ => allOk)
      grids_null_stream_then_repeat 0 0 = ⟨hipErrorInvalidResourceHandle, []⟩ := by
  decide

/-- C7 (amended): a list in which the entries at two positions `i < j` have streams bound to
the same device makes the coordinator return an error with an empty trace: no queue was
drained, no parameter bound and nothing dispatched, so a second call with the same input
gives the same result. The error is `hipErrorInvalidDevice` when the list passes the
admission step and the entries up to position `j` have a non-zero 32-bit block product and a
non-null stream (later entries are not read); otherwise it is the `hipErrorInvalidValue` of
the admission step or the `hipErrorInvalidConfiguration` or `hipErrorInvalidResourceHandle`
of an entry read before the repetition is met. -/
theorem C7_duplicate_device_rejected (env : Env) (K : Consts) (ext : Nat → LaunchExt)
    (l : List hipFunctionLaunchParams) (flags extFlags : Nat)
    (i j : Nat) (ei ej : hipFunctionLaunchParams) (si sj : Stream)
    (hij : i < j) (hi : l[i]? = some ei) (hj : l[j]? = some ej)
    (hsi : ei.hStream = some si) (hsj : ej.hStream = some sj)
    (hSame : si.device.addr = sj.device.addr) :
    (ihipModuleLaunchCooperativeKernelMultiDevice env K ext l flags extFlags).trace = [] ∧
    ((ihipModuleLaunchCooperativeKernelMultiDevice env K ext l flags extFlags).status =
        hipErrorInvalidValue ∨
      (ihipModuleLaunchCooperativeKernelMultiDevice env K ext l flags extFlags).status =
        hipErrorInvalidConfiguration ∨
      (ihipModuleLaunchCooperativeKernelMultiDevice env K ext l flags extFlags).status =
        hipErrorInvalidResourceHandle ∨
      (ihipModuleLaunchCooperativeKernelMultiDevice env K ext l flags extFlags).status =
        hipErrorInvalidDevice) ∧
    (l.length ≤ toUnsigned env.numActiveGPUs →
      flags ≤ K.hipCooperativeLaunchMultiDeviceNoPostSync +
        K.hipCooperativeLaunchMultiDeviceNoPreSync →
      (∀ k e, k ≤ j → l[k]? = some e →
        mul32 (mul32 e.blockDimX e.blockDimY) e.blockDimZ ≠ 0 ∧ e.hStream ≠ none) →
      ihipModuleLaunchCooperativeKernelMultiDevice env K ext l flags extFlags =
        ⟨hipErrorInvalidDevice, []⟩) := by
  have hdev : entryDevice env ej = entryDevice env ei := by
    simp [entryDevice, Env.getStream, hsi, hsj, hSame]
  have hjlt : j < l.length := by
    rcases Nat.lt_or_ge j l.length with h | h
    · exact h
    · rw [List.getElem?_eq_none h] at hj
      cases hj
  have hnotok : ∀ total, geometryPass l 0 0 (List.replicate l.length none) ≠ .ok total := by
    intro total hok
    have h := (geometryPass_ok_distinct env l [] 0 total List.nodup_nil (by simpa using hok)).2
    simp only [List.nil_append] at h
    have hne := (List.nodup_iff_getElem?_ne_getElem?.mp h) i j hij (by simpa using hjlt)
    apply hne
    simp [List.getElem?_map, hi, hj, hdev]
  refine ⟨?_, ?_, ?_⟩
  · unfold ihipModuleLaunchCooperativeKernelMultiDevice
    dsimp only
    split
    · rfl
    · split
      · rfl
      · split
        · rfl
        · rename_i total hok
          exact absurd hok (hnotok total)
  · unfold ihipModuleLaunchCooperativeKernelMultiDevice
    dsimp only
    split
    · exact Or.inl rfl
    · split
      · exact Or.inl rfl
      · split
        · rename_i e he
          rcases geometryPass_error _ _ _ _ e he with h | h | h
          · exact Or.inr (Or.inl (by rw [h]))
          · exact Or.inr (Or.inr (Or.inl (by rw [h])))
          · exact Or.inr (Or.inr (Or.inr (by rw [h])))
        · rename_i total hok
          exact absurd hok (hnotok total)
  · intro hCount hFlags hValid
    have hmem : entryDevice env ej ∈ ([] : List Nat) ++ (l.take j).map (entryDevice env) := by
      rw [hdev, List.nil_append]
      apply List.mem_map_of_mem
      rw [List.mem_iff_getElem?]
      exact ⟨i, by rw [List.getElem?_take_of_lt hij, hi]⟩
    have hgp := geometryPass_duplicate_at env l [] 0 j ej hValid hj hmem
    simp only [List.length_nil, List.map_nil, List.nil_append] at hgp
    unfold ihipModuleLaunchCooperativeKernelMultiDevice
    dsimp only
    rw [if_neg (by omega), if_neg (by omega), hgp]

/-- Witness for C7 (amended): on a machine with three active devices the first two entries
are on device 0 and the third entry has a zero block dimension and a null stream; the call
returns `hipErrorInvalidDevice` with an empty trace. -/
theorem C7_duplicate_device_rejected_witness :
    ihipModuleLaunchCooperativeKernelMultiDevice threeGpus headerConsts (fun _ => allOk)
      grids_repeat_then_zero_block 0 0 = ⟨hipErrorInvalidDevice, []⟩ :=
  (C7_duplicate_device_rejected threeGpus headerConsts (fun _ => allOk)
    grids_repeat_then_zero_block 0 0 0 1
    (entryOf (1, 1, 1) (64, 1, 1) (some (streamOn 1 0)))
    (entryOf (1, 1, 1) (64, 1, 1) (some (streamOn 2 0))) (streamOn 1 0) (streamOn 2 0)
    (by decide) rfl rfl rfl rfl rfl).2.2 (by decide) (by decide)
    (by
      intro k e hk he
      match k, hk with
      | 0, _ =>
        simp only [grids_repeat_then_zero_block, List.getElem?_cons_zero,
          Option.some.injEq] at he
        subst he
        exact ⟨by decide, by simp [entryOf]⟩
      | 1, _ =>
        simp only [grids_repeat_then_zero_block, List.getElem?_cons_succ,
          List.getElem?_cons_zero, Option.some.injEq] at he
        subst he
        exact ⟨by decide, by simp [entryOf]⟩)

/-- C8 (code defect): entry 0 is dispatched and entry 1 has a global size of `2 ^ 32` on the
X axis; with both sync flags clear the coordinator leaves through the `return` inside the
dispatch loop: the result is `hipErrorInvalidConfiguration`, only entry 0 was dispatched,
and the only drains in the trace are the two of the pre-synchronization, none after the
dispatch of entry 0. When entry 1 fails inside `ihipModuleLaunchKernel` instead, the loop
is left by `break` and the post-synchronization drains both queues. -/
theorem C8_overflow_return_skips_post_sync :
    (ihipModuleLaunchCooperativeKernelMultiDevice twoGpus headerConsts (fun _ => allOk)
      grids_overflow_at_1 0 0).status = hipErrorInvalidConfiguration ∧
    (calls (ihipModuleLaunchCooperativeKernelMultiDevice twoGpus headerConsts (fun _ => allOk)
      grids_overflow_at_1 0 0).trace).map (fun c => c.gridId) = [0] ∧
    (ihipModuleLaunchCooperativeKernelMultiDevice twoGpus headerConsts (fun _ => allOk)
      grids_overflow_at_1 0 0).trace.map Event.isFinish =
      [true, true, false, false, false, false, false, false] ∧
    (ihipModuleLaunchCooperativeKernelMultiDevice twoGpus headerConsts failAt1
      grids_64_64 0 0).status = hipErrorOutOfMemory ∧
    (ihipModuleLaunchCooperativeKernelMultiDevice twoGpus headerConsts failAt1
      grids_64_64 0 0).trace.map Event.isFinish =
      [true, true, false, false, false, false, false, false, false, false, true, true] := by
  decide

/-- C9 (counterexample): both sync flags are clear and the two entries are bound to the
same device; the first loop returns `hipErrorInvalidDevice` before the pre-synchronization,
and `finish` is called on neither entry's queue. -/
theorem C9_counterexample :
    (0 : Nat) &&& headerConsts.hipCooperativeLaunchMultiDeviceNoPreSync = 0 ∧
    (0 : Nat) &&& headerConsts.hipCooperativeLaunchMultiDeviceNoPostSync = 0 ∧
    ihipModuleLaunchCooperativeKernelMultiDevice twoGpus headerConsts (fun _ => allOk)
      grids_same_device 0 0 = ⟨hipErrorInvalidDevice, []⟩ ∧
    finishes (ihipModuleLaunchCooperativeKernelMultiDevice twoGpus headerConsts (fun _ => allOk)
      grids_same_device 0 0).trace = [] := by
  decide

/-- C9 (amended): in the trace `tr` of the coordinator,
(a) with `hipCooperativeLaunchMultiDeviceNoPreSync` set no queue is drained before the first
dispatch;
(b) with `hipCooperativeLaunchMultiDeviceNoPostSync` set every drain precedes the first
dispatch, so none follows the dispatch loop;
(c) with the pre-sync flag clear, for a list that passes the admission step and the first
loop (every entry with a non-zero 32-bit block product and a non-null stream, devices pairwise
distinct), the drains before the first dispatch are one `finish` per entry, on the queues in
list order;
(d) with the post-sync flag clear, for such a list whose per-axis global sizes all fit in
32 bits, the drains after the last dispatch are one `finish` per entry, in list order. -/
theorem C9_sync_flags_govern_drains (env : Env) (K : Consts) (ext : Nat → LaunchExt)
    (l : List hipFunctionLaunchParams) (flags extFlags : Nat) (tr : List Event)
    (htr : tr = (ihipModuleLaunchCooperativeKernelMultiDevice env K ext l flags
      extFlags).trace) :
    (flags &&& K.hipCooperativeLaunchMultiDeviceNoPreSync ≠ 0 →
      finishes (beforeFirstCall tr) = []) ∧
    (flags &&& K.hipCooperativeLaunchMultiDeviceNoPostSync ≠ 0 →
      finishes tr = finishes (beforeFirstCall tr)) ∧
    (l.length ≠ 0 ∧ l.length ≤ toUnsigned env.numActiveGPUs ∧
        flags ≤ K.hipCooperativeLaunchMultiDeviceNoPostSync +
          K.hipCooperativeLaunchMultiDeviceNoPreSync →
      (∀ e ∈ l, mul32 (mul32 e.blockDimX e.blockDimY) e.blockDimZ ≠ 0 ∧ e.hStream ≠ none) →
      (l.map (entryDevice env)).Nodup →
      flags &&& K.hipCooperativeLaunchMultiDeviceNoPreSync = 0 →
      finishes (beforeFirstCall tr) =
        l.map (fun launch => (env.getStream launch.hStream).queue)) ∧
    (l.length ≠ 0 ∧ l.length ≤ toUnsigned env.numActiveGPUs ∧
        flags ≤ K.hipCooperativeLaunchMultiDeviceNoPostSync +
          K.hipCooperativeLaunchMultiDeviceNoPreSync →
      (∀ e ∈ l, mul32 (mul32 e.blockDimX e.blockDimY) e.blockDimZ ≠ 0 ∧ e.hStream ≠ none) →
      (l.map (entryDevice env)).Nodup →
      (∀ e ∈ l, e.gridDimX * e.blockDimX ≤ UINT32_MAX ∧ e.gridDimY * e.blockDimY ≤ UINT32_MAX ∧
        e.gridDimZ * e.blockDimZ ≤ UINT32_MAX) →
      flags &&& K.hipCooperativeLaunchMultiDeviceNoPostSync = 0 →
      finishes (afterLastCall tr) =
        l.map (fun launch => (env.getStream launch.hStream).queue)) := by
  subst htr
  refine ⟨?_, ?_, ?_, ?_⟩
  · intro hset
    rcases coordinator_trace env K ext l flags extFlags with h0 | ⟨a, tail, h, htail, _, hret⟩
    · rw [h0]
      rfl
    · rw [h]
      have hpre : preSync env K l flags = [] := by
        unfold preSync
        rw [if_neg hset]
      rw [hpre, List.nil_append]
      cases l with
      | nil =>
        have : tail = [] := by
          rcases htail with h1 | h1
          · exact h1
          · rw [h1]
            unfold postSync finishAll
            simp
        rw [this]
        rfl
      | cons x rest =>
        rcases dispatchLoop_cons_shape env K ext flags extFlags (x :: rest).length a x rest 0 0 0
          env.deviceGetCountResult with hs | ⟨c, t, hs⟩
        · rw [hret ⟨_, by rw [hs]⟩, hs]
          rfl
        · rw [hs]
          simp [beforeFirstCall, Event.isCall, finishes]
  · intro hset
    rcases coordinator_trace env K ext l flags extFlags with h0 | ⟨a, tail, h, htail, _, _⟩
    · rw [h0]
      rfl
    · have hpost : postSync env K l flags = [] := by
        unfold postSync
        rw [if_neg hset]
      have ht : tail = [] := by
        rcases htail with h1 | h1
        · exact h1
        · rw [h1, hpost]
      rw [h, ht, List.append_nil, finishes_append,
        finishes_of_noFinish (dispatchLoop_noFinish env K ext flags extFlags l.length a l 0 0 0
          env.deviceGetCountResult), List.append_nil]
      have hd : (dispatchLoop env K ext flags extFlags l.length a l 0 0 0
          env.deviceGetCountResult).2 = [] ∨ ∃ c t, (dispatchLoop env K ext flags extFlags
          l.length a l 0 0 0 env.deviceGetCountResult).2 = Event.call c :: t := by
        cases l with
        | nil => exact Or.inl rfl
        | cons x rest =>
          rcases dispatchLoop_cons_shape env K ext flags extFlags (x :: rest).length a x rest
            0 0 0 env.deviceGetCountResult with hs | hs
          · exact Or.inl (by rw [hs])
          · exact Or.inr hs
      rcases hd with hd | ⟨c, t, hd⟩
      · rw [hd, List.append_nil, beforeFirstCall_self _ (preSync_not_call env K l flags)]
      · rw [hd, beforeFirstCall_append_call _ _ _ (preSync_not_call env K l flags)]
  · intro hAdmit hValid hDistinct hclear
    obtain ⟨a, tail, h, _, _, hret⟩ :=
      coordinator_trace_of_accepted env K ext l flags extFlags hAdmit hValid hDistinct
    rw [h]
    cases l with
    | nil => exact absurd rfl hAdmit.1
    | cons x rest =>
      rcases dispatchLoop_cons_shape env K ext flags extFlags (x :: rest).length a x rest 0 0 0
        env.deviceGetCountResult with hs | ⟨c, t, hs⟩
      · rw [hret ⟨_, by rw [hs]⟩, hs, List.append_nil, List.append_nil,
          beforeFirstCall_self _ (preSync_not_call env K _ flags),
          finishes_preSync_of_clear env K _ flags hclear]
      · rw [hs, List.append_assoc, List.cons_append,
          beforeFirstCall_append_call _ _ _ (preSync_not_call env K _ flags),
          finishes_preSync_of_clear env K _ flags hclear]
  · intro hAdmit hValid hDistinct hFit hclear
    obtain ⟨a, tail, h, _, hfin, _⟩ :=
      coordinator_trace_of_accepted env K ext l flags extFlags hAdmit hValid hDistinct
    obtain ⟨result, hres⟩ := dispatchLoop_finished_of_fit env K ext flags extFlags l.length a l
      0 0 0 env.deviceGetCountResult hFit (fun e he => (hValid e he).1)
    rw [h, hfin ⟨result, hres⟩]
    have hno := dispatchLoop_noFinish env K ext flags extFlags l.length a l 0 0 0
      env.deviceGetCountResult
    cases l with
    | nil => exact absurd rfl hAdmit.1
    | cons x rest =>
      rcases dispatchLoop_cons_shape env K ext flags extFlags (x :: rest).length a x rest 0 0 0
        env.deviceGetCountResult with hs | ⟨c, t, hs⟩
      · rw [hs] at hres
        cases hres
      · rw [hs] at hno ⊢
        obtain ⟨w, hw, hafter⟩ := afterLastCall_append (preSync env K (x :: rest) flags) t
          (postSync env K (x :: rest) flags) c (postSync_not_call env K _ flags)
        rw [hafter, finishes_append, finishes_postSync_of_clear env K _ flags hclear,
          finishes_of_noFinish (fun e he => hno e (List.mem_cons_of_mem _ (hw e he))),
          List.nil_append]

/-- Witness for C9 (amended): two well-formed grids on two devices; with both flags clear
the queues 1 and 2 are drained, in that order, before the first and after the last dispatch,
and with both flags set nothing is drained before the first dispatch. -/
theorem C9_sync_flags_govern_drains_witness :
    finishes (beforeFirstCall (ihipModuleLaunchCooperativeKernelMultiDevice twoGpus
      headerConsts (fun _ => allOk) grids_64_64 0 0).trace) = [1, 2] ∧
    finishes (afterLastCall (ihipModuleLaunchCooperativeKernelMultiDevice twoGpus
      headerConsts (fun _ => allOk) grids_64_64 0 0).trace) = [1, 2] ∧
    finishes (beforeFirstCall (ihipModuleLaunchCooperativeKernelMultiDevice twoGpus
      headerConsts (fun _ => allOk) grids_64_64 3 0).trace) = [] :=
  ⟨(C9_sync_flags_govern_drains twoGpus headerConsts (fun _ => allOk) grids_64_64 0 0 _
      rfl).2.2.1 (by decide) (by decide) (by decide) (by decide),
    (C9_sync_flags_govern_drains twoGpus headerConsts (fun _ => allOk) grids_64_64 0 0 _
      rfl).2.2.2 (by decide) (by decide) (by decide) (by decide) (by decide),
    (C9_sync_flags_govern_drains twoGpus headerConsts (fun _ => allOk) grids_64_64 3 0 _
      rfl).1 (by decide)⟩

/-! ## Parameter storage on failure -/

/-- C10 (counterexample): the kernel requires uniform work-groups, the global size 10 is not
a multiple of the block size 4; the launch returns `hipErrorInvalidValue` from the
divisibility test, after `ihipLaunchKernel_validate` has written the kernel's parameter. -/
theorem C10_counterexample :
    (ihipModuleLaunchKernel twoGpus headerConsts allOk (some (kernelWith 1024 true))
      10 1 1 4 1 1 0 (some (streamOn 1 0)) somePointers none none none
      0 0 0 0 0 0 0).status = hipErrorInvalidValue ∧
    effects (ihipModuleLaunchKernel twoGpus headerConsts allOk (some (kernelWith 1024 true))
      10 1 1 4 1 1 0 (some (streamOn 1 0)) somePointers none none none
      0 0 0 0 0 0 0).trace = [Event.parametersSet 7 0 8 4096 true] := by
  decide

/-- C10 (amended): when `ihipModuleLaunchKernel` fails before or inside
`ihipLaunchKernel_validate` (failed prelude, null function, or any failure returned by
`ihipLaunchKernel_validate`), it returns that failure and performs no step besides being
entered: no `parameters().set`, no command construction, no enqueue. -/
theorem C10_validate_failure_leaves_parameters (env : Env) (K : Consts) (ext : LaunchExt)
    (f : Option DeviceFunc) (gX gY gZ bX bY bZ sharedMemBytes : Nat) (hStream : Option Stream)
    (kernelParams extra : Option (Nat → Nat)) (startEvent stopEvent : Option HipEvent)
    (flags params gridId numGrids prevGridSum allGridSum firstDevice : Nat)
    (h : ext.initStatManagedVarDevicePtr ≠ hipSuccess ∨ f = none ∨
      (ihipLaunchKernel_validate env K ext f gX gY gZ bX bY bZ sharedMemBytes kernelParams
        extra (env.getStream hStream).deviceId params).status ≠ hipSuccess) :
    (ihipModuleLaunchKernel env K ext f gX gY gZ bX bY bZ sharedMemBytes hStream kernelParams
      extra startEvent stopEvent flags params gridId numGrids prevGridSum allGridSum
      firstDevice).status ≠ hipSuccess ∧
    effects (ihipModuleLaunchKernel env K ext f gX gY gZ bX bY bZ sharedMemBytes hStream
      kernelParams extra startEvent stopEvent flags params gridId numGrids prevGridSum
      allGridSum firstDevice).trace = [] := by
  unfold ihipModuleLaunchKernel
  dsimp only
  by_cases hinit : ext.initStatManagedVarDevicePtr ≠ hipSuccess
  · rw [if_pos hinit]
    exact ⟨fun hn => hinit (Outcome.returned.inj hn), rfl⟩
  · rw [if_neg hinit]
    cases f with
    | none => exact ⟨fun hn => hipError_t.noConfusion (Outcome.returned.inj hn), rfl⟩
    | some function =>
      have hv : (ihipLaunchKernel_validate env K ext (some function) gX gY gZ bX bY bZ
          sharedMemBytes kernelParams extra (env.getStream hStream).deviceId params).status ≠
          hipSuccess := by
        rcases h with h | h | h
        · exact absurd h hinit
        · cases h
        · exact h
      dsimp only
      rw [if_pos hv, validate_failure_trace _ _ _ _ _ _ _ _ _ _ _ _ _ _ _ hv]
      exact ⟨hv, rfl⟩

/-- Witness for C10 (amended): a launch whose block is larger than the device limit. -/
theorem C10_validate_failure_leaves_parameters_witness :
    effects (ihipModuleLaunchKernel twoGpus headerConsts allOk (some (kernelWith 1024 true))
      4096 1 1 2048 1 1 0 (some (streamOn 1 0)) somePointers none none none
      0 0 0 0 0 0 0).trace = [] :=
  (C10_validate_failure_leaves_parameters twoGpus headerConsts allOk
    (some (kernelWith 1024 true)) 4096 1 1 2048 1 1 0 (some (streamOn 1 0)) somePointers none
    none none 0 0 0 0 0 0 0 (Or.inr (Or.inr (by decide)))).2

/-! ## Admission, check order, entry points and command construction -/

/-- C11: with a device count that is a non-negative `int`, the coordinator returns
`hipErrorInvalidValue` with an empty trace, whatever the entries are, when `numDevices` is 0
or exceeds the number of active devices or `flags` exceeds
`hipCooperativeLaunchMultiDeviceNoPostSync + hipCooperativeLaunchMultiDeviceNoPreSync`; for
every other `numDevices` and `flags` the admission step lets the call through, the result
being that of the statements which follow it. -/
theorem C11_admission (env : Env) (K : Consts) (ext : Nat → LaunchExt)
    (l : List hipFunctionLaunchParams) (flags extFlags : Nat)
    (hCount : 0 ≤ env.numActiveGPUs ∧ env.numActiveGPUs < 2 ^ 31) :
    ((l.length = 0 ∨ (l.length : Int) > env.numActiveGPUs ∨
        flags > K.hipCooperativeLaunchMultiDeviceNoPostSync +
          K.hipCooperativeLaunchMultiDeviceNoPreSync) →
      ihipModuleLaunchCooperativeKernelMultiDevice env K ext l flags extFlags =
        ⟨hipErrorInvalidValue, []⟩) ∧
    (¬ (l.length = 0 ∨ (l.length : Int) > env.numActiveGPUs ∨
        flags > K.hipCooperativeLaunchMultiDeviceNoPostSync +
          K.hipCooperativeLaunchMultiDeviceNoPreSync) →
      ihipModuleLaunchCooperativeKernelMultiDevice env K ext l flags extFlags =
        afterAdmission env K ext l flags extFlags) := by
  have hc := toUnsigned_of_count env.numActiveGPUs hCount.1 hCount.2
  constructor
  · intro h
    unfold ihipModuleLaunchCooperativeKernelMultiDevice
    dsimp only
    by_cases h1 : l.length = 0 ∨ l.length > toUnsigned env.numActiveGPUs
    · rw [if_pos h1]
    · rw [if_neg h1, if_pos (by omega)]
  · intro h
    exact coordinator_of_admitted env K ext l flags extFlags (by omega) (by omega)

/-- Witness for C11: on a machine with two active devices a list of three entries is
rejected, and so is a list of two entries with `flags = 4`. -/
theorem C11_admission_witness :
    ihipModuleLaunchCooperativeKernelMultiDevice twoGpus headerConsts (fun _ => allOk)
      grids_100_200_50 0 0 = ⟨hipErrorInvalidValue, []⟩ ∧
    ihipModuleLaunchCooperativeKernelMultiDevice twoGpus headerConsts (fun _ => allOk)
      grids_64_64 4 0 = ⟨hipErrorInvalidValue, []⟩ :=
  ⟨(C11_admission twoGpus headerConsts (fun _ => allOk) grids_100_200_50 0 0
      (by decide)).1 (by decide),
    (C11_admission twoGpus headerConsts (fun _ => allOk) grids_64_64 4 0
      (by decide)).1 (by decide)⟩

/-- C12 (code defect): the block (65536, 65536, 1) has `2 ^ 32` threads and fails check 5 of
the specification (device limit 1024), whose reason is `hipErrorInvalidValue`. The source
forms the product in 32 bits, where it is 0, so its tests 5 and 7 let the launch pass. On a
kernel that is not resolved on the device (check 6 fails too) `ihipLaunchKernel_validate`
returns the reason of check 6, `hipErrorInvalidDevice`, and not that of the earliest failing
check. On a resolved kernel with ceiling 1024 (check 7 fails too) and the cooperative flag,
it does not return at all: it divides by the block size 0. Where the first failing check is
not hidden by the 32-bit product the earliest reason is returned: too much shared memory
(check 4) on the unresolved kernel gives `hipErrorInvalidValue`. -/
theorem C12_wrapped_product_hides_check_5 :
    checksInSpecOrder twoGpus headerConsts allOk (some unresolvedKernel) 65536 65536 1
      65536 65536 1 0 somePointers none 0 0 =
      [none, none, none, none, some hipErrorInvalidValue, some hipErrorInvalidDevice, none,
        none, none, none] ∧
    firstFailure (checksInSpecOrder twoGpus headerConsts allOk (some unresolvedKernel)
      65536 65536 1 65536 65536 1 0 somePointers none 0 0) = some hipErrorInvalidValue ∧
    (ihipLaunchKernel_validate twoGpus headerConsts allOk (some unresolvedKernel)
      65536 65536 1 65536 65536 1 0 somePointers none 0 0).status = hipErrorInvalidDevice ∧
    checksInSpecOrder twoGpus headerConsts allOk (some (kernelWith 1024 false)) 65536 65536 1
      65536 65536 1 0 somePointers none 0 headerConsts.CooperativeGroups =
      [none, none, none, none, some hipErrorInvalidValue, none, some hipErrorLaunchFailure,
        none, none, none] ∧
    (ihipLaunchKernel_validate twoGpus headerConsts allOk (some (kernelWith 1024 false))
      65536 65536 1 65536 65536 1 0 somePointers none 0
      headerConsts.CooperativeGroups).status = Outcome.divideByZero ∧
    firstFailure (checksInSpecOrder twoGpus headerConsts allOk (some unresolvedKernel)
      64 1 1 64 1 1 70000 somePointers none 0 0) = some hipErrorInvalidValue ∧
    (checksInSpecOrder twoGpus headerConsts allOk (some unresolvedKernel)
      64 1 1 64 1 1 70000 somePointers none 0 0)[5]? = some (some hipErrorInvalidDevice) ∧
    (ihipLaunchKernel_validate twoGpus headerConsts allOk (some unresolvedKernel)
      64 1 1 64 1 1 70000 somePointers none 0 0).status = hipErrorInvalidValue := by
  decide

/-- C13 (code defect): `hipModuleLaunchKernel` with a valid stream, grid (1, 65536, 1), within
the grid limits, and block (1, 65536, 1): the exact product on the Y axis is `2 ^ 32`, beyond
`2 ^ 32 - 1`. The function compares only the X axis with `UINT32_MAX`, so it does not return
`hipErrorInvalidConfiguration`: it calls `ihipModuleLaunchKernel` with the truncated global
size 0 on Y and returns the `hipErrorInvalidValue` of that call. The same happens on the Z
axis. On the X axis, and in `hipModuleLaunchCooperativeKernel`,
`hipLaunchCooperativeKernel_common` and the multi-device coordinator on the same Y-axis
dimensions, the call returns `hipErrorInvalidConfiguration` and `ihipModuleLaunchKernel` is
not called. -/
theorem C13_only_x_axis_tested :
    65536 ≤ UINT16_MAX + 1 ∧ 65536 * 65536 > UINT32_MAX ∧
    (hipModuleLaunchKernel twoGpus headerConsts allOk none true none
      (some (kernelWith 1024 false)) 1 65536 1 1 65536 1 0 (some (streamOn 1 0)) somePointers
      none).status = hipErrorInvalidValue ∧
    (calls (hipModuleLaunchKernel twoGpus headerConsts allOk none true none
      (some (kernelWith 1024 false)) 1 65536 1 1 65536 1 0 (some (streamOn 1 0)) somePointers
      none).trace).map (fun c => c.globalWorkSize) = [(1, 0, 1)] ∧
    (calls (hipModuleLaunchKernel twoGpus headerConsts allOk none true none
      (some (kernelWith 1024 false)) 1 1 65536 1 1 65536 0 (some (streamOn 1 0)) somePointers
      none).trace).map (fun c => c.globalWorkSize) = [(1, 1, 0)] ∧
    hipModuleLaunchKernel twoGpus headerConsts allOk none true none
      (some (kernelWith 1024 false)) 65536 1 1 65536 1 1 0 (some (streamOn 1 0)) somePointers
      none = ⟨hipErrorInvalidConfiguration, []⟩ ∧
    hipModuleLaunchCooperativeKernel twoGpus headerConsts allOk none true
      (some (kernelWith 1024 false)) 1 65536 1 1 65536 1 0 (some (streamOn 1 0))
      somePointers = ⟨hipErrorInvalidConfiguration, []⟩ ∧
    hipLaunchCooperativeKernel_common twoGpus headerConsts allOk true
      (hipSuccess, some (kernelWith 1024 false)) (1, 65536, 1) (1, 65536, 1) somePointers 0
      (some (streamOn 1 0)) = ⟨hipErrorInvalidConfiguration, []⟩ ∧
    (ihipModuleLaunchCooperativeKernelMultiDevice twoGpus headerConsts (fun _ => allOk)
      [entryOf (1, 65536, 1) (1, 65536, 1) (some (streamOn 1 0))] 2 0).status =
      hipErrorInvalidConfiguration ∧
    calls (ihipModuleLaunchCooperativeKernelMultiDevice twoGpus headerConsts (fun _ => allOk)
      [entryOf (1, 65536, 1) (1, 65536, 1) (some (streamOn 1 0))] 2 0).trace = [] := by
  decide

/-- C14 (code defect): a cooperative launch of `2 ^ 22` blocks of 1024 threads (grid
(2097152, 2, 1), block (1024, 1, 1), per-axis global sizes `2 ^ 31`, 2, 1, each within
32 bits) on a device with cooperative support and an occupancy ceiling of 1024 blocks: the
product of the three global sizes wraps to 0 in 32 bits, the quotient by the block size is 0,
and `ihipLaunchKernel_validate` returns `hipSuccess` instead of
`hipErrorCooperativeLaunchTooLarge`. -/
theorem C14_block_count_wraps_at_32_bits :
    headerConsts.CooperativeGroups &&& headerConsts.CooperativeGroups ≠ 0 ∧
    (twoGpus.device 0).info.cooperativeGroups_ = true ∧
    allOk.max_blocks_per_grid = 1024 ∧ 1024 < 2097152 * 2 * 1 ∧
    mul32 (mul32 (2097152 * 1024) (2 * 1)) (1 * 1) = 0 ∧
    (ihipLaunchKernel_validate twoGpus headerConsts allOk (some (kernelWith 1024 false))
      (2097152 * 1024) (2 * 1) (1 * 1) 1024 1 1 0 somePointers none 0
      headerConsts.CooperativeGroups).status = hipSuccess ∧
    (ihipLaunchKernel_validate twoGpus headerConsts allOk (some (kernelWith 1024 false))
      (2048 * 1024) (1 * 1) (1 * 1) 1024 1 1 0 somePointers none 0
      headerConsts.CooperativeGroups).status = hipErrorCooperativeLaunchTooLarge := by
  decide

/-- C15 (code defect): a launch with a start event whose `addMarker` fails: the command has
been constructed, the launch returns the marker's error, and `command->release()` is never
called. On the success path and when the queue rejects the command it is called once. -/
theorem C15_marker_failure_skips_release :
    (ihipModuleLaunchKernel twoGpus headerConsts markerFails (some (kernelWith 1024 false))
      64 1 1 64 1 1 0 (some (streamOn 1 0)) somePointers none (some ⟨5, 0⟩) none
      0 0 0 0 0 0 0).status = hipErrorOutOfMemory ∧
    (commands (ihipModuleLaunchKernel twoGpus headerConsts markerFails
      (some (kernelWith 1024 false)) 64 1 1 64 1 1 0 (some (streamOn 1 0)) somePointers none
      (some ⟨5, 0⟩) none 0 0 0 0 0 0 0).trace).length = 1 ∧
    releases (ihipModuleLaunchKernel twoGpus headerConsts markerFails
      (some (kernelWith 1024 false)) 64 1 1 64 1 1 0 (some (streamOn 1 0)) somePointers none
      (some ⟨5, 0⟩) none 0 0 0 0 0 0 0).trace = 0 ∧
    releases (ihipModuleLaunchKernel twoGpus headerConsts allOk
      (some (kernelWith 1024 false)) 64 1 1 64 1 1 0 (some (streamOn 1 0)) somePointers none
      (some ⟨5, 0⟩) none 0 0 0 0 0 0 0).trace = 1 ∧
    releases (ihipModuleLaunchKernel twoGpus headerConsts queueRejects
      (some (kernelWith 1024 false)) 64 1 1 64 1 1 0 (some (streamOn 1 0)) somePointers none
      (some ⟨5, 0⟩) none 0 0 0 0 0 0 0).trace = 1 := by
  decide

/-- C16: for a launch through `ihipModuleLaunchKernel` (prelude succeeded, non-null function)
that passes `ihipLaunchKernel_validate`, on a kernel marked as requiring uniform work-groups
the launch is rejected with `hipErrorInvalidValue` before any command is constructed if and
only if on some axis the global size is not a multiple of the clamped block size
`min blockDim globalWorkSize`; on a kernel not so marked it is never rejected there; and the
three clamped block sizes, by which the modulo is taken, are non-zero. -/
theorem C16_uniform_work_group_test (env : Env) (K : Consts) (ext : LaunchExt)
    (function : DeviceFunc) (deviceKernel : DeviceKernel)
    (gX gY gZ bX bY bZ sharedMemBytes : Nat) (hStream : Option Stream)
    (kernelParams extra : Option (Nat → Nat)) (startEvent stopEvent : Option HipEvent)
    (flags params gridId numGrids prevGridSum allGridSum firstDevice : Nat)
    (hInit : ext.initStatManagedVarDevicePtr = hipSuccess)
    (hValidated : (ihipLaunchKernel_validate env K ext (some function) gX gY gZ bX bY bZ
      sharedMemBytes kernelParams extra (env.getStream hStream).deviceId params).status =
      hipSuccess)
    (hKernel : function.getDeviceKernel (env.device (env.getStream hStream).deviceId).addr =
      some deviceKernel) :
    (deviceKernel.uniformWorkGroupSize = true →
      (((ihipModuleLaunchKernel env K ext (some function) gX gY gZ bX bY bZ sharedMemBytes
          hStream kernelParams extra startEvent stopEvent flags params gridId numGrids
          prevGridSum allGridSum firstDevice).status = hipErrorInvalidValue ∧
        commands (ihipModuleLaunchKernel env K ext (some function) gX gY gZ bX bY bZ
          sharedMemBytes hStream kernelParams extra startEvent stopEvent flags params gridId
          numGrids prevGridSum allGridSum firstDevice).trace = []) ↔
        (gX % min bX gX ≠ 0 ∨ gY % min bY gY ≠ 0 ∨ gZ % min bZ gZ ≠ 0))) ∧
    (deviceKernel.uniformWorkGroupSize = false →
      ¬ ((ihipModuleLaunchKernel env K ext (some function) gX gY gZ bX bY bZ sharedMemBytes
          hStream kernelParams extra startEvent stopEvent flags params gridId numGrids
          prevGridSum allGridSum firstDevice).status = hipErrorInvalidValue ∧
        commands (ihipModuleLaunchKernel env K ext (some function) gX gY gZ bX bY bZ
          sharedMemBytes hStream kernelParams extra startEvent stopEvent flags params gridId
          numGrids prevGridSum allGridSum firstDevice).trace = [])) ∧
    (min bX gX ≠ 0 ∧ min bY gY ≠ 0 ∧ min bZ gZ ≠ 0) := by
  obtain ⟨d1, d2, d3, d4, d5, d6⟩ := validate_success_dims env K ext (some function) gX gY gZ
    bX bY bZ sharedMemBytes kernelParams extra (env.getStream hStream).deviceId params hValidated
  have hbound := commands_validate env K ext (some function) gX gY gZ bX bY bZ sharedMemBytes
    kernelParams extra (env.getStream hStream).deviceId params
  have hcont := launch_after_uniform_test K ext function gX gY gZ (clampBlock gX bX)
    (clampBlock gY bY) (clampBlock gZ bZ) sharedMemBytes (env.getStream hStream) startEvent
    stopEvent flags params gridId numGrids prevGridSum allGridSum firstDevice
    (Event.call
      { globalWorkSize := (gX, gY, gZ), blockDim := (bX, bY, bZ),
        sharedMemBytes := sharedMemBytes, flags := flags, params := params, gridId := gridId,
        numGrids := numGrids, prevGridSum := prevGridSum, allGridSum := allGridSum,
        firstDevice := firstDevice })
    (ihipLaunchKernel_validate env K ext (some function) gX gY gZ bX bY bZ sharedMemBytes
      kernelParams extra (env.getStream hStream).deviceId params).trace hbound rfl
  refine ⟨?_, ?_, ?_⟩
  · intro hu
    unfold ihipModuleLaunchKernel
    dsimp only
    rw [if_neg (not_not.mpr hInit), if_neg (not_not.mpr hValidated)]
    simp only [hKernel, hu, true_and]
    rw [← clampBlock_eq_min, ← clampBlock_eq_min, ← clampBlock_eq_min]
    by_cases hdiv : gX % clampBlock gX bX ≠ 0 ∨ gY % clampBlock gY bY ≠ 0 ∨
        gZ % clampBlock gZ bZ ≠ 0
    · rw [if_pos hdiv]
      have hc : ∀ (c : LaunchCall) (t : List Event), commands (Event.call c :: t) =
          commands t := fun _ _ => rfl
      exact ⟨fun _ => hdiv, fun _ => ⟨rfl, by rw [hc, hbound]⟩⟩
    · rw [if_neg hdiv]
      exact ⟨fun h => absurd h hcont, fun h => absurd h hdiv⟩
  · intro hu
    unfold ihipModuleLaunchKernel
    dsimp only
    rw [if_neg (not_not.mpr hInit), if_neg (not_not.mpr hValidated)]
    simp only [hKernel, hu, Bool.false_eq_true, false_and, if_false]
    exact hcont
  · refine ⟨?_, ?_, ?_⟩ <;> omega

/-- Witness for C16: a uniform kernel with global size 10 and block size 4 is rejected
before any command is built. -/
theorem C16_uniform_work_group_test_witness :
    (ihipModuleLaunchKernel twoGpus headerConsts allOk (some (kernelWith 1024 true))
      10 1 1 4 1 1 0 (some (streamOn 1 0)) somePointers none none none
      0 0 0 0 0 0 0).status = hipErrorInvalidValue ∧
    commands (ihipModuleLaunchKernel twoGpus headerConsts allOk (some (kernelWith 1024 true))
      10 1 1 4 1 1 0 (some (streamOn 1 0)) somePointers none none none
      0 0 0 0 0 0 0).trace = [] :=
  ((C16_uniform_work_group_test twoGpus headerConsts allOk (kernelWith 1024 true)
    { workGroupInfoSize_ := 1024, uniformWorkGroupSize := true } 10 1 1 4 1 1 0
    (some (streamOn 1 0)) somePointers none none none 0 0 0 0 0 0 0 rfl (by decide) rfl).1
    rfl).mpr (by decide)

/-- C17: every command that `ihipModuleLaunchKernel` constructs has global offset (0, 0, 0),
the caller's global work size on each axis and, as local size on each axis, the smaller of
the requested block dimension and the global work size, so that the local size does not
exceed the global size on any axis. -/
theorem C17_range_descriptor (env : Env) (K : Consts) (ext : LaunchExt)
    (f : Option DeviceFunc) (gX gY gZ bX bY bZ sharedMemBytes : Nat) (hStream : Option Stream)
    (kernelParams extra : Option (Nat → Nat)) (startEvent stopEvent : Option HipEvent)
    (flags params gridId numGrids prevGridSum allGridSum firstDevice : Nat)
    (cmd : NDRangeKernelCommand)
    (hBuilt : cmd ∈ commands (ihipModuleLaunchKernel env K ext f gX gY gZ bX bY bZ
      sharedMemBytes hStream kernelParams extra startEvent stopEvent flags params gridId
      numGrids prevGridSum allGridSum firstDevice).trace) :
    cmd.globalWorkOffset = (0, 0, 0) ∧ cmd.globalWorkSize = (gX, gY, gZ) ∧
    cmd.localWorkSize = (min bX gX, min bY gY, min bZ gZ) ∧
    cmd.localWorkSize.1 ≤ cmd.globalWorkSize.1 ∧
    cmd.localWorkSize.2.1 ≤ cmd.globalWorkSize.2.1 ∧
    cmd.localWorkSize.2.2 ≤ cmd.globalWorkSize.2.2 := by
  obtain ⟨h1, h2, h3⟩ := commands_launch env K ext f gX gY gZ bX bY bZ sharedMemBytes hStream
    kernelParams extra startEvent stopEvent flags params gridId numGrids prevGridSum
    allGridSum firstDevice cmd hBuilt
  rw [clampBlock_eq_min, clampBlock_eq_min, clampBlock_eq_min] at h3
  refine ⟨h1, h2, h3, ?_, ?_, ?_⟩ <;> rw [h2, h3] <;> exact Nat.min_le_right _ _

/-- Witness for C17: a block of (64, 4, 2) on a global size of (128, 2, 1) is launched with
the local size (64, 2, 1). -/
theorem C17_range_descriptor_witness :
    (commands (ihipModuleLaunchKernel twoGpus headerConsts allOk (some (kernelWith 1024 false))
      128 2 1 64 4 2 0 (some (streamOn 1 0)) somePointers none none none
      0 0 0 0 0 0 0).trace).map (fun cmd => cmd.localWorkSize) = [(64, 2, 1)] ∧
    ((64, 2, 1) : Nat × Nat × Nat) = (min 64 128, min 4 2, min 2 1) :=
  ⟨by decide,
    (C17_range_descriptor twoGpus headerConsts allOk (some (kernelWith 1024 false))
      128 2 1 64 4 2 0 (some (streamOn 1 0)) somePointers none none none 0 0 0 0 0 0 0
      { queue := 1, kernel := 7, globalWorkOffset := (0, 0, 0), globalWorkSize := (128, 2, 1),
        localWorkSize := (64, 2, 1), sharedMemBytes := 0, params := 0, gridId := 0,
        numGrids := 0, prevGridSum := 0, allGridSum := 0, firstDevice := 0,
        profileNDRange := false } (by decide)).2.2.1⟩

/-- C18: for a launch with a non-null function that supplies `extra` and no `kernelParams`
and passes the nine tests that the source makes first (in particular the cooperative block
neither returns an error nor divides by a zero block size), `ihipLaunchKernel_validate`
returns `hipErrorInvalidValue` and binds no parameter when the markers at `extra[0]`, `extra[2]`,
`extra[4]` are not `HIP_LAUNCH_PARAM_BUFFER_POINTER`, `HIP_LAUNCH_PARAM_BUFFER_SIZE`,
`HIP_LAUNCH_PARAM_END`; when the three match it returns `hipSuccess` after setting, for the
descriptor at each index `i` of the signature, parameter `i` from address
`extra[1] + offset_`, with the descriptor's size and pointer tag. -/
theorem C18_flat_buffer_markers (env : Env) (K : Consts) (ext : LaunchExt)
    (function : DeviceFunc) (gX gY gZ bX bY bZ sharedMemBytes : Nat) (extra : Nat → Nat)
    (deviceId params : Nat)
    (hEarlier : ∀ j, j < 9 → (testsOfValidate env K ext (some function) gX gY gZ bX bY bZ
      sharedMemBytes none (some extra) deviceId params)[j]? = some none) :
    ((extra 0 ≠ K.HIP_LAUNCH_PARAM_BUFFER_POINTER ∨ extra 2 ≠ K.HIP_LAUNCH_PARAM_BUFFER_SIZE ∨
        extra 4 ≠ K.HIP_LAUNCH_PARAM_END) →
      ihipLaunchKernel_validate env K ext (some function) gX gY gZ bX bY bZ sharedMemBytes none
        (some extra) deviceId params = ⟨hipErrorInvalidValue, []⟩) ∧
    ((extra 0 = K.HIP_LAUNCH_PARAM_BUFFER_POINTER ∧ extra 2 = K.HIP_LAUNCH_PARAM_BUFFER_SIZE ∧
        extra 4 = K.HIP_LAUNCH_PARAM_END) →
      ihipLaunchKernel_validate env K ext (some function) gX gY gZ bX bY bZ sharedMemBytes none
        (some extra) deviceId params =
        ⟨hipSuccess, function.signature.enum.map (fun p =>
          Event.parametersSet function.kernel p.1 p.2.size_ (extra 1 + p.2.offset_)
            p.2.isPointer)⟩) := by
  rw [validate_of_nine_passed env K ext function gX gY gZ bX bY bZ sharedMemBytes none
    (some extra) deviceId params hEarlier]
  unfold bindArguments
  dsimp only
  constructor
  · intro hm
    rw [if_pos hm]
  · intro hm
    rw [if_neg (by simp [hm.1, hm.2.1, hm.2.2]), setParameters_flat]
    rfl

/-- Witness for C18: a cooperative launch with a descriptor that has the three markers and
the buffer at address 8192. A cooperative launch whose 32-bit block product is 0 does not
pass the eighth test: the source divides by zero there and does not return. -/
theorem C18_flat_buffer_markers_witness :
    ihipLaunchKernel_validate twoGpus headerConsts allOk (some (kernelWith 1024 false))
      64 1 1 64 1 1 0 none (some flatBuffer) 0 headerConsts.CooperativeGroups =
      ⟨hipSuccess, [Event.parametersSet 7 0 8 8192 true]⟩ ∧
    (testsOfValidate twoGpus headerConsts allOk (some (kernelWith 1024 false))
      65536 65536 1 65536 65536 1 0 none (some flatBuffer) 0 headerConsts.CooperativeGroups)[7]? =
      some (some Outcome.divideByZero) ∧
    (ihipLaunchKernel_validate twoGpus headerConsts allOk (some (kernelWith 1024 false))
      65536 65536 1 65536 65536 1 0 none (some flatBuffer) 0
      headerConsts.CooperativeGroups).status = Outcome.divideByZero :=
  ⟨(C18_flat_buffer_markers twoGpus headerConsts allOk (kernelWith 1024 false) 64 1 1 64 1 1 0
    flatBuffer 0 headerConsts.CooperativeGroups (by decide)).2 (by decide), by decide,
    by decide⟩

/-- C20 (counterexample): `dptr` is null and `bytes` is not; `hipModuleGetGlobal` returns
`hipSuccess` without a lookup, not an error. -/
theorem C20_counterexample :
    hipModuleGetGlobal none hipSuccess 0 4096 1 (some "counter") = ⟨hipSuccess, false⟩ ∧
    hipModuleGetGlobal none hipSuccess 4096 0 1 (some "counter") = ⟨hipSuccess, false⟩ := by
  decide

/-- C20 (amended): once past `HIP_INIT_API`, `hipModuleGetGlobal` returns `hipSuccess`
without performing any lookup when at least one of the output pointers `dptr` and `bytes`
is null, whether both are or exactly one is. -/
theorem C20_null_output_pointer_ignored (getDynGlobalVar : hipError_t) (dptr bytes hmod : Nat)
    (name : Option String) (h : dptr = 0 ∨ bytes = 0) :
    hipModuleGetGlobal none getDynGlobalVar dptr bytes hmod name = ⟨hipSuccess, false⟩ := by
  unfold hipModuleGetGlobal
  dsimp only
  rw [if_pos h]

/-- Witness for C20 (amended): both output pointers null. -/
theorem C20_null_output_pointer_ignored_witness :
    hipModuleGetGlobal none hipErrorNotFound 0 0 1 (some "counter") = ⟨hipSuccess, false⟩ :=
  C20_null_output_pointer_ignored hipErrorNotFound 0 0 1 (some "counter") (Or.inl rfl)

/-! ## Launch flags of the per-device calls -/

/-- C21: `ihipModuleLaunchCooperativeKernelMultiDevice` passes its `flags` unchanged as the
launch flags, and `extFlags` as the `params`, of every call of `ihipModuleLaunchKernel` it
makes, so every command constructed during the call has `params = extFlags | AnyOrderLaunch`
when `flags & hipExtAnyOrderLaunch` is non-zero and `params = extFlags` otherwise (the first
exactly when the test is non-zero, unless `extFlags` carries the bit already and the two
values coincide). With `hipCooperativeLaunchMultiDeviceNoPreSync = 0x1` and
`hipExtAnyOrderLaunch = 0x1`: when `flags` has the bit `NoPreSync` the barrier before the
dispatch loop is skipped and every command has `params = extFlags | AnyOrderLaunch`, with
the bit `AnyOrderLaunch` set; when `flags` does not have it every command has
`params = extFlags`. A `flags` value that is not admitted leads to no call and no command. -/
theorem C21_sync_flags_reach_the_command (env : Env) (K : Consts) (ext : Nat → LaunchExt)
    (l : List hipFunctionLaunchParams) (flags extFlags : Nat) :
    (∀ c ∈ calls (ihipModuleLaunchCooperativeKernelMultiDevice env K ext l flags
        extFlags).trace, c.flags = flags ∧ c.params = extFlags) ∧
    (∀ cmd ∈ commands (ihipModuleLaunchCooperativeKernelMultiDevice env K ext l flags
        extFlags).trace,
      cmd.params = (if flags &&& K.hipExtAnyOrderLaunch ≠ 0 then extFlags ||| K.AnyOrderLaunch
        else extFlags) ∧
      (extFlags ||| K.AnyOrderLaunch ≠ extFlags →
        (cmd.params = extFlags ||| K.AnyOrderLaunch ↔ flags &&& K.hipExtAnyOrderLaunch ≠ 0))) ∧
    (K.hipCooperativeLaunchMultiDeviceNoPreSync = 0x1 → K.hipExtAnyOrderLaunch = 0x1 →
      (flags &&& K.hipCooperativeLaunchMultiDeviceNoPreSync ≠ 0 →
        preSync env K l flags = [] ∧
        ∀ cmd ∈ commands (ihipModuleLaunchCooperativeKernelMultiDevice env K ext l flags
            extFlags).trace,
          cmd.params = extFlags ||| K.AnyOrderLaunch ∧
          cmd.params &&& K.AnyOrderLaunch = K.AnyOrderLaunch) ∧
      (flags &&& K.hipCooperativeLaunchMultiDeviceNoPreSync = 0 →
        ∀ cmd ∈ commands (ihipModuleLaunchCooperativeKernelMultiDevice env K ext l flags
            extFlags).trace, cmd.params = extFlags)) := by
  have hp := commands_coordinator_params env K ext l flags extFlags
  refine ⟨coordinator_call_flags env K ext l flags extFlags, ?_, ?_⟩
  · intro cmd hcmd
    refine ⟨hp cmd hcmd, ?_⟩
    intro hne
    rw [hp cmd hcmd]
    by_cases hb : flags &&& K.hipExtAnyOrderLaunch ≠ 0
    · rw [if_pos hb]
      exact ⟨fun _ => hb, fun _ => rfl⟩
    · rw [if_neg hb]
      exact ⟨fun h => absurd h.symm hne, fun h => absurd h hb⟩
  · intro hPre hAny
    rw [hPre]
    rw [hAny] at hp
    refine ⟨?_, ?_⟩
    · intro hset
      refine ⟨?_, ?_⟩
      · unfold preSync
        rw [hPre, if_neg hset]
      · intro cmd hcmd
        have h := hp cmd hcmd
        rw [if_pos hset] at h
        rw [h]
        exact ⟨rfl, or_and_self_right extFlags K.AnyOrderLaunch⟩
    · intro hclear
      intro cmd hcmd
      have h := hp cmd hcmd
      rw [if_neg (by rw [hclear]; simp)] at h
      exact h

/-- Witness for C21: two devices, `extFlags = CooperativeGroups | CooperativeMultiDeviceGroups`
(the value 3) and the header values of the flags. The four admitted values of `flags` give
the commands of the two devices `params` 3, 7, 3, 7: with 1 and 3, the values that skip the
barrier before the dispatch loop, the bit `AnyOrderLaunch` (4) is added. -/
theorem C21_sync_flags_reach_the_command_witness :
    ([0, 1, 2, 3].map (fun flags =>
      (commands (ihipModuleLaunchCooperativeKernelMultiDevice twoGpus headerConsts
        (fun _ => allOk) grids_64_64 flags 3).trace).map (fun cmd => cmd.params))) =
      [[3, 3], [7, 7], [3, 3], [7, 7]] ∧
    ([0, 1, 2, 3].map (fun flags =>
      (finishes (beforeFirstCall (ihipModuleLaunchCooperativeKernelMultiDevice twoGpus
        headerConsts (fun _ => allOk) grids_64_64 flags 3).trace)).length)) = [2, 0, 2, 0] ∧
    (preSync twoGpus headerConsts grids_64_64 1 = [] ∧
      ∀ cmd ∈ commands (ihipModuleLaunchCooperativeKernelMultiDevice twoGpus headerConsts
          (fun _ => allOk) grids_64_64 1 3).trace,
        cmd.params = 3 ||| headerConsts.AnyOrderLaunch ∧
        cmd.params &&& headerConsts.AnyOrderLaunch = headerConsts.AnyOrderLaunch) :=
  ⟨by decide, by decide,
    ((C21_sync_flags_reach_the_command twoGpus headerConsts (fun _ => allOk) grids_64_64 1
      3).2.2 rfl rfl).1 (by decide)⟩

end HipModule
